import Mathlib

/-! Verification of the configai configuration-store core.

The definitions below are a shallow embedding of the Rust sources of the
repository (src/src/models.rs, src/src/error.rs, src/src/storage/file.rs,
src/src/storage/dir.rs, src/src/core/project.rs, src/src/core/env.rs,
src/src/core/config.rs, src/src/core/shared.rs, src/src/core/api_key.rs,
src/src/core/mod.rs, src/src/api/handlers.rs).  Rust `Vec` becomes `List`,
`HashMap` becomes an association list with replace-on-insert semantics
(observed only through lookups, so iteration order of the Rust `HashMap`
is irrelevant to every statement proved here), `serde_json::Value` becomes
`JsonValue`, fallible persistence becomes an explicit save oracle and the
process environment becomes a function `String → Option String`. -/

set_option autoImplicit false

namespace ConfigAI

/-- Structured configuration value, mirroring `serde_json::Value` from
src/src/models.rs.  Numbers are modelled as integers; no property below
depends on numeric values. -/
inductive JsonValue where
  | null : JsonValue
  | bool : Bool → JsonValue
  | num : Int → JsonValue
  | str : String → JsonValue
  | arr : List JsonValue → JsonValue
  | obj : List (String × JsonValue) → JsonValue

/-- A config item: `ConfigItem` in src/src/models.rs. -/
structure ConfigItem where
  key : String
  value : JsonValue

/-- An environment: `Environment` in src/src/models.rs. -/
structure Environment where
  name : String
  config_items : List ConfigItem

/-- A project: `Project` in src/src/models.rs. -/
structure Project where
  name : String
  description : Option String
  environments : List Environment

/-- The shared configuration group: `SharedGroup` in src/src/models.rs. -/
structure SharedGroup where
  environments : List Environment

/-- An API key bound to a project: `ApiKey` in src/src/models.rs. -/
structure ApiKey where
  key : String
  project : String

/-- The aggregate configuration tree: `ConfigState` in src/src/models.rs. -/
structure ConfigState where
  projects : List Project
  shared_group : SharedGroup
  api_keys : List ApiKey

/-- The error taxonomy: `ConfigError` in src/src/error.rs.  `StorageError`
also stands in for the `SerializationError` and `IoError` variants, whose
payloads are opaque here. -/
inductive ConfigError where
  | ProjectNotFound : String → ConfigError
  | ProjectAlreadyExists : String → ConfigError
  | EnvironmentNotFound : String → ConfigError
  | EnvironmentAlreadyExists : String → ConfigError
  | ConfigItemNotFound : String → ConfigError
  | ConfigItemAlreadyExists : String → ConfigError
  | ApiKeyNotFound : String → ConfigError
  | Unauthorized : String → ConfigError
  | Forbidden : String → ConfigError
  | StorageError : String → ConfigError

/-- True exactly on the `error` constructor of `Except`. -/
def isErr {ε α : Type} : Except ε α → Bool
  | .error _ => true
  | .ok _ => false

/-! Generic list helpers mirroring the Vec operations used by the source. -/

/-- `Vec::remove` at an index (drops the element, keeps the rest in order). -/
def removeAt {α : Type} : List α → Nat → List α
  | [], _ => []
  | _ :: xs, 0 => xs
  | x :: xs, n + 1 => x :: removeAt xs n

/-- `Vec::insert` at an index (the index is at most the length at every
call site below, matching the Rust panic-freedom precondition). -/
def insertAt {α : Type} : List α → Nat → α → List α
  | l, 0, a => a :: l
  | [], _ + 1, a => [a]
  | x :: xs, n + 1, a => x :: insertAt xs n a

/-- `Iterator::position` followed by `Vec::remove`, fused: returns the
index of the first element satisfying `p`, the element itself, and the
list with that element removed. -/
def removeFirst {α : Type} (p : α → Bool) : List α → Option (Nat × α × List α)
  | [] => none
  | x :: xs =>
    if p x then some (0, x, xs)
    else (removeFirst p xs).map (fun r => (r.1 + 1, r.2.1, x :: r.2.2))

/-- `Iterator::enumerate` starting from index `n`. -/
def enumList {α : Type} : Nat → List α → List (Nat × α)
  | _, [] => []
  | n, x :: xs => (n, x) :: enumList (n + 1) xs

/-- In-place mutation of the first element matching `p`, mirroring the
source pattern `iter_mut().find(..).unwrap()` followed by a field update. -/
def modifyFirst {α : Type} (p : α → Bool) (f : α → α) : List α → List α
  | [] => []
  | x :: xs => if p x then f x :: xs else x :: modifyFirst p f xs

/-! The merged configuration map.  The Rust source builds a
`HashMap<String, serde_json::Value>` by repeated `insert`; we model the
map as an association list whose `upsert` replaces the binding of an
existing key, which has the same lookup semantics. -/

/-- `HashMap::insert`: replace the binding of `k` if present, else add it. -/
def upsert : List (String × JsonValue) → String → JsonValue → List (String × JsonValue)
  | [], k, v => [(k, v)]
  | kv :: rest, k, v => if kv.1 == k then (k, v) :: rest else kv :: upsert rest k v

/-- `HashMap::get`. -/
def lookupA (m : List (String × JsonValue)) (k : String) : Option JsonValue :=
  (m.find? (fun kv => kv.1 == k)).map (fun kv => kv.2)

/-- Left-biased choice on options (`Option::or`). -/
def optOr {α : Type} : Option α → Option α → Option α
  | some v, _ => some v
  | none, b => b

/-- The loop `for item in items { merged.insert(item.key, item.value) }`. -/
def insertItems (m : List (String × JsonValue)) (items : List ConfigItem) :
    List (String × JsonValue) :=
  items.foldl (fun acc it => upsert acc it.key it.value) m

/-- Value of the last item of `items` carrying key `k` (the binding that
survives the repeated-insert loop). -/
def lastVal (items : List ConfigItem) (k : String) : Option JsonValue :=
  (items.reverse.find? (fun it => it.key == k)).map (fun it => it.value)

/-- The merge resolver `get_merged_config` from src/src/core/shared.rs
(lines 184-225): validate the project, validate the environment against
the project's own environment list, seed the map from the same-named
shared environment if any, then overwrite with the project items. -/
def get_merged_config (st : ConfigState) (project env : String) :
    Except ConfigError (List (String × JsonValue)) :=
  match st.projects.find? (fun p => p.name == project) with
  | none => .error (.ProjectNotFound project)
  | some proj =>
    match proj.environments.find? (fun e => e.name == env) with
    | none => .error (.EnvironmentNotFound env)
    | some proj_env =>
      let base : List (String × JsonValue) :=
        match st.shared_group.environments.find? (fun e => e.name == env) with
        | some shared_env => insertItems [] shared_env.config_items
        | none => []
      .ok (insertItems base proj_env.config_items)

/-- Config items of the shared environment named `env`, or `[]` when the
shared group has no environment of that name. -/
def sharedItemsOf (st : ConfigState) (env : String) : List ConfigItem :=
  match st.shared_group.environments.find? (fun e => e.name == env) with
  | some shared_env => shared_env.config_items
  | none => []

/-! Lemmas about the map operations. -/

theorem optOr_assoc {α : Type} (a b c : Option α) :
    optOr (optOr a b) c = optOr a (optOr b c) := by
  cases a <;> rfl

@[simp] theorem optOr_none_left {α : Type} (b : Option α) : optOr none b = b := rfl

@[simp] theorem optOr_some_left {α : Type} (v : α) (b : Option α) :
    optOr (some v) b = some v := rfl

theorem optOr_isSome {α : Type} (a b : Option α) :
    (optOr a b).isSome = (a.isSome || b.isSome) := by
  cases a <;> rfl

theorem lookupA_nil (k : String) : lookupA [] k = none := rfl

theorem lookupA_upsert (m : List (String × JsonValue)) (k : String) (v : JsonValue)
    (k' : String) :
    lookupA (upsert m k v) k' = if k' = k then some v else lookupA m k' := by
  induction m with
  | nil =>
    simp only [upsert, lookupA, List.find?]
    by_cases h : k' = k
    · subst h; simp
    · have hk : ¬(k == k') := by
        intro hc; exact h (beq_iff_eq.mp hc).symm
      simp [hk, h]
  | cons kv rest ih =>
    simp only [upsert]
    by_cases h1 : kv.1 == k
    · simp only [h1, if_true]
      simp only [lookupA, List.find?]
      by_cases h : k' = k
      · subst h
        simp [beq_iff_eq, beq_iff_eq.mp h1]
      · have hk : ¬(k == k') := by
          intro hc; exact h (beq_iff_eq.mp hc).symm
        have hkv : ¬(kv.1 == k') := by
          intro hc
          exact h ((beq_iff_eq.mp hc).symm.trans (beq_iff_eq.mp h1))
        simp [hk, hkv, h]
    · simp only [h1, if_false]
      simp only [lookupA, List.find?] at *
      by_cases h2 : kv.1 == k'
      · simp [h2]
        by_cases h : k' = k
        · exact absurd (by rw [beq_iff_eq] at h2 ⊢; rw [h2, h]) h1
        · simp [h]
      · simp only [h2, Bool.false_eq_true, if_false, cond_false]
        exact ih

theorem find?_append {α : Type} (p : α → Bool) (l1 l2 : List α) :
    (l1 ++ l2).find? p = optOr (l1.find? p) (l2.find? p) := by
  induction l1 with
  | nil => rfl
  | cons x xs ih =>
    simp only [List.cons_append, List.find?]
    by_cases h : p x
    · simp [h, optOr]
    · simp only [h] at *
      simpa using ih

theorem lastVal_nil (k : String) : lastVal [] k = none := rfl

theorem lastVal_cons (it : ConfigItem) (rest : List ConfigItem) (k : String) :
    lastVal (it :: rest) k =
      optOr (lastVal rest k) (if it.key = k then some it.value else none) := by
  simp only [lastVal, List.reverse_cons, find?_append]
  cases hfind : rest.reverse.find? (fun i => i.key == k) with
  | some x => rfl
  | none =>
    by_cases h : it.key = k
    · simp [List.find?, h]
    · have hk : ¬(it.key == k) := by simpa [beq_iff_eq] using h
      simp [List.find?, hk, h]

theorem insertItems_cons (m : List (String × JsonValue)) (it : ConfigItem)
    (rest : List ConfigItem) :
    insertItems m (it :: rest) = insertItems (upsert m it.key it.value) rest := rfl

theorem lookupA_insertItems (items : List ConfigItem) :
    ∀ (m : List (String × JsonValue)) (k : String),
      lookupA (insertItems m items) k = optOr (lastVal items k) (lookupA m k) := by
  induction items with
  | nil => intro m k; rfl
  | cons it rest ih =>
    intro m k
    rw [insertItems_cons, ih, lastVal_cons, optOr_assoc, lookupA_upsert]
    congr 1
    by_cases h : it.key = k
    · simp [h]
    · have h2 : ¬(k = it.key) := fun hc => h hc.symm
      simp [h, h2]

theorem lastVal_isSome (items : List ConfigItem) (k : String) :
    (lastVal items k).isSome = items.any (fun it => it.key == k) := by
  induction items with
  | nil => rfl
  | cons it rest ih =>
    rw [lastVal_cons, optOr_isSome, ih, List.any_cons]
    by_cases h : it.key = k
    · simp [h]
    · have hk : ¬(it.key == k) := by simpa [beq_iff_eq] using h
      simp [h, hk]

theorem lastVal_eq_none_of_not_mem (items : List ConfigItem) (k : String)
    (h : items.all (fun it => !(it.key == k))) : lastVal items k = none := by
  induction items with
  | nil => rfl
  | cons it rest ih =>
    rw [List.all_cons, Bool.and_eq_true] at h
    have h1 : it.key ≠ k := by
      intro hc
      rw [hc] at h
      simpa using h.1
    rw [lastVal_cons, ih h.2]
    simp [h1]

/-- Boolean key-uniqueness inside an environment (data-model invariant 3). -/
def nodupKeys : List ConfigItem → Bool
  | [] => true
  | it :: rest => rest.all (fun q => !(q.key == it.key)) && nodupKeys rest

theorem lastVal_eq_of_mem (items : List ConfigItem)
    (hnd : nodupKeys items = true) (it : ConfigItem) (hmem : it ∈ items) :
    lastVal items it.key = some it.value := by
  induction items with
  | nil => cases hmem
  | cons it0 rest ih =>
    rw [nodupKeys, Bool.and_eq_true] at hnd
    rcases List.mem_cons.mp hmem with h | h
    · subst h
      rw [lastVal_cons, lastVal_eq_none_of_not_mem rest it.key hnd.1]
      simp
    · rw [lastVal_cons, ih hnd.2 h]
      rfl

/-- C1: for a project `p` that exists and an environment `e` present in the
project's own environment list, `get_merged_config` succeeds; the key set
of the returned map is the union of the project environment's keys and the
same-named shared environment's keys (empty when no such shared
environment exists); every project-tier key maps to the project-tier
value, and every key present only in the shared tier maps to the
shared-tier value.  Key uniqueness inside each environment is data-model
invariant 3. -/
theorem merge_layering_correct
    (st : ConfigState) (p e : String) (proj : Project) (penv : Environment)
    (hp : st.projects.find? (fun q => q.name == p) = some proj)
    (he : proj.environments.find? (fun q => q.name == e) = some penv)
    (hnd1 : nodupKeys penv.config_items = true)
    (hnd2 : nodupKeys (sharedItemsOf st e) = true) :
    ∃ m, get_merged_config st p e = .ok m
      ∧ (∀ k, (lookupA m k).isSome
            = (penv.config_items.any (fun it => it.key == k)
               || (sharedItemsOf st e).any (fun it => it.key == k)))
      ∧ (∀ it ∈ penv.config_items, lookupA m it.key = some it.value)
      ∧ (∀ it ∈ sharedItemsOf st e,
            penv.config_items.all (fun q => !(q.key == it.key)) →
            lookupA m it.key = some it.value) := by
  have hbase : get_merged_config st p e
      = .ok (insertItems (insertItems [] (sharedItemsOf st e)) penv.config_items) := by
    simp only [get_merged_config, sharedItemsOf, hp, he]
    cases hsh : st.shared_group.environments.find? (fun q => q.name == e) <;> rfl
  refine ⟨_, hbase, ?_, ?_, ?_⟩
  · intro k
    rw [lookupA_insertItems, lookupA_insertItems, optOr_isSome, optOr_isSome]
    simp [lookupA_nil, lastVal_isSome, Bool.or_comm]
  · intro it hit
    rw [lookupA_insertItems, lastVal_eq_of_mem _ hnd1 it hit]
    rfl
  · intro it hit hall
    rw [lookupA_insertItems, lastVal_eq_none_of_not_mem _ _ hall, optOr_none_left,
      lookupA_insertItems, lastVal_eq_of_mem _ hnd2 it hit]
    rfl

/-- C6: `get_merged_config` reports `ProjectNotFound` when the project is
absent, the distinct `EnvironmentNotFound` when the project exists but the
environment is not in the project's own list; it succeeds exactly when
project and project-environment exist, and replacing the shared group by
any other shared group never changes whether it succeeds. -/
theorem merge_error_discipline (st : ConfigState) (p e : String) :
    (st.projects.find? (fun q => q.name == p) = none →
      get_merged_config st p e = .error (.ProjectNotFound p))
    ∧ (∀ proj, st.projects.find? (fun q => q.name == p) = some proj →
        proj.environments.find? (fun q => q.name == e) = none →
        get_merged_config st p e = .error (.EnvironmentNotFound e))
    ∧ (isErr (get_merged_config st p e) = false ↔
        ∃ proj, st.projects.find? (fun q => q.name == p) = some proj
          ∧ (proj.environments.find? (fun q => q.name == e)).isSome = true)
    ∧ (∀ sh1 sh2 : List Environment,
        isErr (get_merged_config { st with shared_group := ⟨sh1⟩ } p e)
          = isErr (get_merged_config { st with shared_group := ⟨sh2⟩ } p e)) := by
  refine ⟨?_, ?_, ?_, ?_⟩
  · intro h
    simp [get_merged_config, h]
  · intro proj h1 h2
    simp [get_merged_config, h1, h2]
  · constructor
    · intro h
      cases hp : st.projects.find? (fun q => q.name == p) with
      | none => rw [get_merged_config] at h; simp [hp, isErr] at h
      | some proj =>
        cases he : proj.environments.find? (fun q => q.name == e) with
        | none => rw [get_merged_config] at h; simp [hp, he, isErr] at h
        | some penv => exact ⟨proj, rfl, by rw [he]; rfl⟩
    · rintro ⟨proj, hp, hsome⟩
      cases he : proj.environments.find? (fun q => q.name == e) with
      | none => rw [he] at hsome; simp at hsome
      | some penv => simp [get_merged_config, hp, he, isErr]
  · intro sh1 sh2
    cases hp : st.projects.find? (fun q => q.name == p) with
    | none => simp [get_merged_config, hp, isErr]
    | some proj =>
      cases he : proj.environments.find? (fun q => q.name == e) with
      | none => simp [get_merged_config, hp, he, isErr]
      | some penv => simp [get_merged_config, hp, he, isErr]

/-! Concrete data used by the witnesses. -/

/-- Sample project environment: project tier overrides `log_level` and adds
`db_host`. -/
def envW : Environment :=
  { name := ("default"),
    config_items := [⟨("log_level"), .str ("debug")⟩, ⟨("db_host"), .str ("localhost")⟩] }

/-- Sample project. -/
def projW : Project :=
  { name := ("app"), description := none, environments := [envW] }

/-- Sample shared environment: overlaps the project tier on `log_level`
and adds `timeout`. -/
def sharedEnvW : Environment :=
  { name := ("default"),
    config_items := [⟨("log_level"), .str ("info")⟩, ⟨("timeout"), .num 30⟩] }

/-- Sample tree: one project, one shared environment, one API key. -/
def stW : ConfigState :=
  { projects := [projW],
    shared_group := ⟨[sharedEnvW]⟩,
    api_keys := [⟨("test-key-123"), ("app")⟩] }

/-- Witness for C1 at the sample tree. -/
theorem merge_layering_correct_witness :
    (stW.projects.find? (fun q => q.name == ("app")) = some projW)
    ∧ (projW.environments.find? (fun q => q.name == ("default")) = some envW)
    ∧ (nodupKeys envW.config_items = true)
    ∧ (nodupKeys (sharedItemsOf stW ("default")) = true)
    ∧ (∃ m, get_merged_config stW ("app") ("default") = .ok m
      ∧ (∀ k, (lookupA m k).isSome
            = (envW.config_items.any (fun it => it.key == k)
               || (sharedItemsOf stW ("default")).any (fun it => it.key == k)))
      ∧ (∀ it ∈ envW.config_items, lookupA m it.key = some it.value)
      ∧ (∀ it ∈ sharedItemsOf stW ("default"),
            envW.config_items.all (fun q => !(q.key == it.key)) →
            lookupA m it.key = some it.value)) :=
  ⟨by rfl, by rfl, by rfl, by rfl,
    merge_layering_correct stW ("app") ("default") projW envW (by rfl) (by rfl)
      (by rfl) (by rfl)⟩

/-- Witness for C6 at the sample tree: a missing project and a missing
project environment produce the two distinct errors. -/
theorem merge_error_discipline_witness :
    get_merged_config stW ("nope") ("default") = .error (.ProjectNotFound ("nope"))
    ∧ get_merged_config stW ("app") ("staging")
        = .error (.EnvironmentNotFound ("staging")) :=
  ⟨(merge_error_discipline stW ("nope") ("default")).1 (by rfl),
   (merge_error_discipline stW ("app") ("staging")).2.1 projW (by rfl) (by rfl)⟩

/-! The snapshot-mode storage engine and the Mutation Engine
(src/src/storage/file.rs and src/src/core/{project,env,config,shared,api_key}.rs).
Every operation mutates the in-memory state, invokes `save`, and on save
failure undoes the mutation exactly as the source does (push→pop,
remove→insert-at-index, replace→restore-old-value).  The fallible
`Storage::save` call is modelled by a save oracle carried by the storage:
`none` is a successful write, `some e` a persistence failure. -/

/-- Snapshot-mode storage: in-memory state plus the persistence oracle. -/
structure Storage where
  state : ConfigState
  save : ConfigState → Option ConfigError

/-- Mutation of the config items of the first environment named `env` of
the first project named `project` (the `iter_mut().find()` chains of
src/src/core/config.rs). -/
def modifyEnvItems (st : ConfigState) (project env : String)
    (f : List ConfigItem → List ConfigItem) : ConfigState :=
  { st with
    projects :=
      modifyFirst (fun p => p.name == project)
        (fun p =>
          { p with
            environments :=
              modifyFirst (fun q => q.name == env)
                (fun q => { q with config_items := f q.config_items })
                p.environments })
        st.projects }

/-- Mutation of the config items of the first shared environment named
`env` (the `iter_mut().find()` chains of src/src/core/shared.rs). -/
def modifySharedItems (st : ConfigState) (env : String)
    (f : List ConfigItem → List ConfigItem) : ConfigState :=
  { st with
    shared_group :=
      ⟨modifyFirst (fun q => q.name == env)
        (fun q => { q with config_items := f q.config_items })
        st.shared_group.environments⟩ }

/-- `create_project` from src/src/core/project.rs (lines 7-36). -/
def create_project (s : Storage) (name : String) (description : Option String) :
    Storage × Except ConfigError Project :=
  if s.state.projects.any (fun p => p.name == name) then
    (s, .error (.ProjectAlreadyExists name))
  else
    let project : Project :=
      { name := name, description := description,
        environments := [{ name := ("default"), config_items := [] }] }
    let st1 := { s.state with projects := s.state.projects ++ [project] }
    match s.save st1 with
    | none => ({ s with state := st1 }, .ok project)
    | some e =>
      ({ s with state := { st1 with projects := st1.projects.dropLast } }, .error e)

/-- `delete_project` from src/src/core/project.rs (lines 45-79): remove the
project, remove every API key bound to it back-to-front, and on persist
failure re-insert everything at the recorded original indices. -/
def delete_project (s : Storage) (name : String) : Storage × Except ConfigError Unit :=
  match removeFirst (fun p => p.name == name) s.state.projects with
  | none => (s, .error (.ProjectNotFound name))
  | some (pos, removed_project, projects1) =>
    let removed_keys :=
      (enumList 0 s.state.api_keys).filter (fun ik => ik.2.project == name)
    let api_keys1 :=
      removed_keys.reverse.foldl (fun l ik => removeAt l ik.1) s.state.api_keys
    let st1 := { s.state with projects := projects1, api_keys := api_keys1 }
    match s.save st1 with
    | none => ({ s with state := st1 }, .ok ())
    | some e =>
      let projects2 := insertAt projects1 pos removed_project
      let api_keys2 := removed_keys.foldl (fun l ik => insertAt l ik.1 ik.2) api_keys1
      ({ s with state := { st1 with projects := projects2, api_keys := api_keys2 } },
        .error e)

/-- `create_environment` from src/src/core/env.rs (lines 7-51). -/
def create_environment (s : Storage) (project env_name : String) :
    Storage × Except ConfigError Environment :=
  match s.state.projects.find? (fun p => p.name == project) with
  | none => (s, .error (.ProjectNotFound project))
  | some proj =>
    if proj.environments.any (fun q => q.name == env_name) then
      (s, .error (.EnvironmentAlreadyExists env_name))
    else
      let env : Environment := { name := env_name, config_items := [] }
      let st1 :=
        { s.state with
          projects :=
            modifyFirst (fun p => p.name == project)
              (fun p => { p with environments := p.environments ++ [env] })
              s.state.projects }
      match s.save st1 with
      | none => ({ s with state := st1 }, .ok env)
      | some e =>
        let st2 :=
          { st1 with
            projects :=
              modifyFirst (fun p => p.name == project)
                (fun p => { p with environments := p.environments.dropLast })
                st1.projects }
        ({ s with state := st2 }, .error e)

/-- `delete_environment` from src/src/core/env.rs (lines 67-107). -/
def delete_environment (s : Storage) (project env_name : String) :
    Storage × Except ConfigError Unit :=
  match s.state.projects.find? (fun p => p.name == project) with
  | none => (s, .error (.ProjectNotFound project))
  | some proj =>
    match removeFirst (fun q => q.name == env_name) proj.environments with
    | none => (s, .error (.EnvironmentNotFound env_name))
    | some (env_pos, removed_env, _) =>
      let st1 :=
        { s.state with
          projects :=
            modifyFirst (fun p => p.name == project)
              (fun p => { p with environments := removeAt p.environments env_pos })
              s.state.projects }
      match s.save st1 with
      | none => ({ s with state := st1 }, .ok ())
      | some e =>
        let st2 :=
          { st1 with
            projects :=
              modifyFirst (fun p => p.name == project)
                (fun p =>
                  { p with
                    environments := insertAt p.environments env_pos removed_env })
                st1.projects }
        ({ s with state := st2 }, .error e)

/-- `create_config_item` from src/src/core/config.rs (lines 7-69). -/
def create_config_item (s : Storage) (project env key : String) (value : JsonValue) :
    Storage × Except ConfigError ConfigItem :=
  match s.state.projects.find? (fun p => p.name == project) with
  | none => (s, .error (.ProjectNotFound project))
  | some proj =>
    match proj.environments.find? (fun q => q.name == env) with
    | none => (s, .error (.EnvironmentNotFound env))
    | some environment =>
      if environment.config_items.any (fun it => it.key == key) then
        (s, .error (.ConfigItemAlreadyExists key))
      else
        let config_item : ConfigItem := { key := key, value := value }
        let st1 := modifyEnvItems s.state project env (fun items => items ++ [config_item])
        match s.save st1 with
        | none => ({ s with state := st1 }, .ok config_item)
        | some e =>
          ({ s with state := modifyEnvItems st1 project env (fun items => items.dropLast) },
            .error e)

/-- `update_config_item` from src/src/core/config.rs (lines 73-143).  The
source checks key existence with `any` and then re-finds the item with
`iter_mut().find().unwrap()`; the two are fused into one `find?`. -/
def update_config_item (s : Storage) (project env key : String) (value : JsonValue) :
    Storage × Except ConfigError ConfigItem :=
  match s.state.projects.find? (fun p => p.name == project) with
  | none => (s, .error (.ProjectNotFound project))
  | some proj =>
    match proj.environments.find? (fun q => q.name == env) with
    | none => (s, .error (.EnvironmentNotFound env))
    | some environment =>
      match environment.config_items.find? (fun it => it.key == key) with
      | none => (s, .error (.ConfigItemNotFound key))
      | some item =>
        let old_value := item.value
        let st1 := modifyEnvItems s.state project env
          (modifyFirst (fun it => it.key == key) (fun it => { it with value := value }))
        match s.save st1 with
        | none => ({ s with state := st1 }, .ok { key := key, value := value })
        | some e =>
          let st2 :=
            modifyEnvItems st1 project env
              (modifyFirst (fun it => it.key == key)
                (fun it => { it with value := old_value }))
          ({ s with state := st2 }, .error e)

/-- `delete_config_item` from src/src/core/config.rs (lines 146-206). -/
def delete_config_item (s : Storage) (project env key : String) :
    Storage × Except ConfigError Unit :=
  match s.state.projects.find? (fun p => p.name == project) with
  | none => (s, .error (.ProjectNotFound project))
  | some proj =>
    match proj.environments.find? (fun q => q.name == env) with
    | none => (s, .error (.EnvironmentNotFound env))
    | some environment =>
      match removeFirst (fun it => it.key == key) environment.config_items with
      | none => (s, .error (.ConfigItemNotFound key))
      | some (pos, removed, _) =>
        let st1 := modifyEnvItems s.state project env (fun items => removeAt items pos)
        match s.save st1 with
        | none => ({ s with state := st1 }, .ok ())
        | some e =>
          let st2 := modifyEnvItems st1 project env (fun items => insertAt items pos removed)
          ({ s with state := st2 }, .error e)

/-- `create_shared_item` from src/src/core/shared.rs (lines 9-59). -/
def create_shared_item (s : Storage) (env key : String) (value : JsonValue) :
    Storage × Except ConfigError ConfigItem :=
  match s.state.shared_group.environments.find? (fun q => q.name == env) with
  | none => (s, .error (.EnvironmentNotFound env))
  | some environment =>
    if environment.config_items.any (fun it => it.key == key) then
      (s, .error (.ConfigItemAlreadyExists key))
    else
      let config_item : ConfigItem := { key := key, value := value }
      let st1 := modifySharedItems s.state env (fun items => items ++ [config_item])
      match s.save st1 with
      | none => ({ s with state := st1 }, .ok config_item)
      | some e =>
        ({ s with state := modifySharedItems st1 env (fun items => items.dropLast) },
          .error e)

/-- `update_shared_item` from src/src/core/shared.rs (lines 63-119), with
the same `any`-then-`find` fusion as `update_config_item`. -/
def update_shared_item (s : Storage) (env key : String) (value : JsonValue) :
    Storage × Except ConfigError ConfigItem :=
  match s.state.shared_group.environments.find? (fun q => q.name == env) with
  | none => (s, .error (.EnvironmentNotFound env))
  | some environment =>
    match environment.config_items.find? (fun it => it.key == key) with
    | none => (s, .error (.ConfigItemNotFound key))
    | some item =>
      let old_value := item.value
      let st1 := modifySharedItems s.state env
        (modifyFirst (fun it => it.key == key) (fun it => { it with value := value }))
      match s.save st1 with
      | none => ({ s with state := st1 }, .ok { key := key, value := value })
      | some e =>
        let st2 :=
          modifySharedItems st1 env
            (modifyFirst (fun it => it.key == key)
              (fun it => { it with value := old_value }))
        ({ s with state := st2 }, .error e)

/-- `delete_shared_item` from src/src/core/shared.rs (lines 122-164). -/
def delete_shared_item (s : Storage) (env key : String) :
    Storage × Except ConfigError Unit :=
  match s.state.shared_group.environments.find? (fun q => q.name == env) with
  | none => (s, .error (.EnvironmentNotFound env))
  | some environment =>
    match removeFirst (fun it => it.key == key) environment.config_items with
    | none => (s, .error (.ConfigItemNotFound key))
    | some (pos, removed, _) =>
      let st1 := modifySharedItems s.state env (fun items => removeAt items pos)
      match s.save st1 with
      | none => ({ s with state := st1 }, .ok ())
      | some e =>
        let st2 := modifySharedItems st1 env (fun items => insertAt items pos removed)
        ({ s with state := st2 }, .error e)

/-- `generate_api_key` from src/src/core/api_key.rs (lines 9-29).  The
freshly generated UUID is passed in as `newKey` (the source draws it from
the system's random source). -/
def generate_api_key (s : Storage) (project : String) (newKey : String) :
    Storage × Except ConfigError ApiKey :=
  if s.state.projects.any (fun p => p.name == project) then
    let api_key : ApiKey := { key := newKey, project := project }
    let st1 := { s.state with api_keys := s.state.api_keys ++ [api_key] }
    match s.save st1 with
    | none => ({ s with state := st1 }, .ok api_key)
    | some e =>
      ({ s with state := { st1 with api_keys := st1.api_keys.dropLast } }, .error e)
  else
    (s, .error (.ProjectNotFound project))

/-- `revoke_api_key` from src/src/core/api_key.rs (lines 33-49). -/
def revoke_api_key (s : Storage) (key : String) : Storage × Except ConfigError Unit :=
  match removeFirst (fun k => k.key == key) s.state.api_keys with
  | none => (s, .error (.ApiKeyNotFound key))
  | some (pos, removed, api_keys1) =>
    let st1 := { s.state with api_keys := api_keys1 }
    match s.save st1 with
    | none => ({ s with state := st1 }, .ok ())
    | some e =>
      ({ s with state := { st1 with api_keys := insertAt st1.api_keys pos removed } },
        .error e)

/-! Rollback support lemmas: push→pop, remove→insert-at-index and
replace→restore-old-value each restore the original list. -/

theorem modifyFirst_modifyFirst {α : Type} (p : α → Bool) (f g : α → α)
    (hg : ∀ a, p (g a) = p a) (l : List α) :
    modifyFirst p f (modifyFirst p g l) = modifyFirst p (fun a => f (g a)) l := by
  induction l with
  | nil => rfl
  | cons x xs ih =>
    by_cases h : p x
    · simp [modifyFirst, h, hg]
    · simp [modifyFirst, h, hg, ih]

theorem modifyFirst_fix_of_find? {α : Type} (p : α → Bool) (f : α → α) (l : List α)
    (a : α) (hfind : l.find? p = some a) (hfa : f a = a) :
    modifyFirst p f l = l := by
  induction l with
  | nil => simp [List.find?] at hfind
  | cons x xs ih =>
    by_cases h : p x
    · rw [List.find?_cons_of_pos _ h, Option.some_inj] at hfind
      subst hfind
      simp [modifyFirst, h, hfa]
    · rw [List.find?_cons_of_neg _ h] at hfind
      simp [modifyFirst, h, ih hfind]

theorem removeFirst_insertAt {α : Type} (p : α → Bool) (l : List α) (i : Nat) (a : α)
    (l' : List α) (h : removeFirst p l = some (i, a, l')) : insertAt l' i a = l := by
  induction l generalizing i l' with
  | nil => simp [removeFirst] at h
  | cons x xs ih =>
    rw [removeFirst] at h
    by_cases hp : p x
    · rw [if_pos hp, Option.some_inj] at h
      cases h
      cases xs <;> rfl
    · rw [if_neg hp] at h
      cases hr : removeFirst p xs with
      | none => rw [hr] at h; simp at h
      | some r =>
        rw [hr] at h
        simp only [Option.map] at h
        cases h
        exact congrArg (List.cons x) (ih r.1 r.2.2 (by rw [hr]))

theorem removeFirst_removeAt {α : Type} (p : α → Bool) (l : List α) (i : Nat) (a : α)
    (l' : List α) (h : removeFirst p l = some (i, a, l')) : removeAt l i = l' := by
  induction l generalizing i l' with
  | nil => simp [removeFirst] at h
  | cons x xs ih =>
    rw [removeFirst] at h
    by_cases hp : p x
    · rw [if_pos hp, Option.some_inj] at h
      cases h
      rfl
    · rw [if_neg hp] at h
      cases hr : removeFirst p xs with
      | none => rw [hr] at h; simp at h
      | some r =>
        rw [hr] at h
        simp only [Option.map] at h
        cases h
        exact congrArg (List.cons x) (ih r.1 r.2.2 (by rw [hr]))

theorem removeFirst_find? {α : Type} (p : α → Bool) (l : List α) (i : Nat) (a : α)
    (l' : List α) (h : removeFirst p l = some (i, a, l')) : l.find? p = some a := by
  induction l generalizing i l' with
  | nil => simp [removeFirst] at h
  | cons x xs ih =>
    rw [removeFirst] at h
    by_cases hp : p x
    · rw [if_pos hp, Option.some_inj] at h
      cases h
      exact List.find?_cons_of_pos _ hp
    · rw [if_neg hp] at h
      cases hr : removeFirst p xs with
      | none => rw [hr] at h; simp at h
      | some r =>
        rw [hr] at h
        simp only [Option.map] at h
        cases h
        rw [List.find?_cons_of_neg _ hp]
        exact ih r.1 r.2.2 (by rw [hr])

theorem removeFirst_split {α : Type} (p : α → Bool) (l : List α) (i : Nat) (a : α)
    (l' : List α) (h : removeFirst p l = some (i, a, l')) :
    p a = true ∧ ∃ pre post, l = pre ++ a :: post ∧ l' = pre ++ post
      ∧ ∀ x ∈ pre, p x = false := by
  induction l generalizing i l' with
  | nil => simp [removeFirst] at h
  | cons x xs ih =>
    rw [removeFirst] at h
    by_cases hp : p x
    · rw [if_pos hp, Option.some_inj] at h
      cases h
      exact ⟨hp, [], xs, rfl, rfl, by intro y hy; cases hy⟩
    · rw [if_neg hp] at h
      cases hr : removeFirst p xs with
      | none => rw [hr] at h; simp at h
      | some r =>
        rw [hr] at h
        simp only [Option.map] at h
        cases h
        obtain ⟨hpa, pre, post, h1, h2, h3⟩ := ih r.1 r.2.2 (by rw [hr])
        refine ⟨hpa, x :: pre, post, by rw [List.cons_append, h1], by rw [h2]; rfl, ?_⟩
        intro y hy
        rcases List.mem_cons.mp hy with hy | hy
        · subst hy; simpa using hp
        · exact h3 y hy

theorem insertAt_zero {α : Type} (l : List α) (a : α) : insertAt l 0 a = a :: l := by
  cases l <;> rfl

theorem modifyEnvItems_comp (st : ConfigState) (project env : String)
    (f g : List ConfigItem → List ConfigItem) :
    modifyEnvItems (modifyEnvItems st project env g) project env f
      = modifyEnvItems st project env (fun items => f (g items)) := by
  have hfun : ∀ a : Project,
      ({ a with
        environments :=
          modifyFirst (fun q => q.name == env)
            (fun q => { q with config_items := f q.config_items })
            (modifyFirst (fun q => q.name == env)
              (fun q => { q with config_items := g q.config_items })
              a.environments) } : Project)
      = ({ a with
        environments :=
          modifyFirst (fun q => q.name == env)
            (fun q => { q with config_items := f (g q.config_items) })
            a.environments } : Project) := by
    intro a
    rw [modifyFirst_modifyFirst]
    intro q
    rfl
  simp only [modifyEnvItems]
  rw [modifyFirst_modifyFirst]
  · exact congrArg
      (fun h => { st with
        projects := modifyFirst (fun p => p.name == project) h st.projects })
      (funext hfun)
  · intro a
    rfl

theorem modifyEnvItems_fix (st : ConfigState) (project env : String)
    (f : List ConfigItem → List ConfigItem) (proj : Project) (envr : Environment)
    (hp : st.projects.find? (fun p => p.name == project) = some proj)
    (he : proj.environments.find? (fun q => q.name == env) = some envr)
    (hf : f envr.config_items = envr.config_items) :
    modifyEnvItems st project env f = st := by
  simp only [modifyEnvItems]
  rw [modifyFirst_fix_of_find? _ _ _ proj hp]
  · show ({ proj with
        environments :=
          modifyFirst (fun q => q.name == env)
            (fun q => { q with config_items := f q.config_items })
            proj.environments } : Project) = proj
    rw [modifyFirst_fix_of_find? _ _ _ envr he]
    show ({ envr with config_items := f envr.config_items } : Environment) = envr
    rw [hf]

theorem modifySharedItems_comp (st : ConfigState) (env : String)
    (f g : List ConfigItem → List ConfigItem) :
    modifySharedItems (modifySharedItems st env g) env f
      = modifySharedItems st env (fun items => f (g items)) := by
  simp only [modifySharedItems]
  rw [modifyFirst_modifyFirst]
  intro a
  rfl

theorem modifySharedItems_fix (st : ConfigState) (env : String)
    (f : List ConfigItem → List ConfigItem) (envr : Environment)
    (he : st.shared_group.environments.find? (fun q => q.name == env) = some envr)
    (hf : f envr.config_items = envr.config_items) :
    modifySharedItems st env f = st := by
  simp only [modifySharedItems]
  rw [modifyFirst_fix_of_find? _ _ _ envr he]
  show ({ envr with config_items := f envr.config_items } : Environment) = envr
  rw [hf]

theorem enumList_shift {α : Type} (n : Nat) (l : List α) :
    enumList (n + 1) l = (enumList n l).map (fun ik => (ik.1 + 1, ik.2)) := by
  induction l generalizing n with
  | nil => rfl
  | cons x xs ih => simp [enumList, ih]

theorem filter_map_shift {α : Type} (q : α → Bool) (pairs : List (Nat × α)) :
    (pairs.map (fun ik => (ik.1 + 1, ik.2))).filter (fun ik => q ik.2)
      = (pairs.filter (fun ik => q ik.2)).map (fun ik => (ik.1 + 1, ik.2)) := by
  induction pairs with
  | nil => rfl
  | cons ik rest ih =>
    by_cases h : q ik.2 <;> simp [List.filter_cons, h, ih]

theorem foldl_removeAt_shift {α : Type} (pairs : List (Nat × α)) (x : α) (l : List α) :
    pairs.foldl (fun acc ik => removeAt acc (ik.1 + 1)) (x :: l)
      = x :: pairs.foldl (fun acc ik => removeAt acc ik.1) l := by
  induction pairs generalizing l with
  | nil => rfl
  | cons ik rest ih =>
    simp only [List.foldl_cons]
    exact ih _

theorem foldl_insertAt_shift {α : Type} (pairs : List (Nat × α)) (x : α) (l : List α) :
    pairs.foldl (fun acc ik => insertAt acc (ik.1 + 1) ik.2) (x :: l)
      = x :: pairs.foldl (fun acc ik => insertAt acc ik.1 ik.2) l := by
  induction pairs generalizing l with
  | nil => rfl
  | cons ik rest ih =>
    simp only [List.foldl_cons]
    exact ih _

/-- Removing the enumerated indices of the elements satisfying `p`,
back-to-front, is exactly `filter (!p)` — the API-key removal loop of
`delete_project`. -/
theorem enum_filter_removeAt {α : Type} (p : α → Bool) (l : List α) :
    ((enumList 0 l).filter (fun ik => p ik.2)).reverse.foldl
        (fun acc ik => removeAt acc ik.1) l
      = l.filter (fun a => !p a) := by
  induction l with
  | nil => rfl
  | cons x xs ih =>
    rw [show enumList 0 (x :: xs) = (0, x) :: enumList 1 xs from rfl,
      enumList_shift 0 xs]
    by_cases h : p x
    · rw [List.filter_cons_of_pos (by simpa using h), filter_map_shift,
        List.reverse_cons, List.foldl_append, ← List.map_reverse,
        List.foldl_map, foldl_removeAt_shift, ih,
        List.filter_cons_of_neg (by simpa using h)]
      rfl
    · rw [List.filter_cons_of_neg (by simpa using h), filter_map_shift,
        ← List.map_reverse, List.foldl_map, foldl_removeAt_shift, ih,
        List.filter_cons_of_pos (by simpa using h)]

/-- Re-inserting the removed elements at their recorded original indices,
front-to-back, restores the original list — the API-key rollback loop of
`delete_project`. -/
theorem enum_filter_insertAt {α : Type} (p : α → Bool) (l : List α) :
    ((enumList 0 l).filter (fun ik => p ik.2)).foldl
        (fun acc ik => insertAt acc ik.1 ik.2) (l.filter (fun a => !p a))
      = l := by
  induction l with
  | nil => rfl
  | cons x xs ih =>
    rw [show enumList 0 (x :: xs) = (0, x) :: enumList 1 xs from rfl,
      enumList_shift 0 xs]
    by_cases h : p x
    · rw [List.filter_cons_of_neg (by simpa using h),
        List.filter_cons_of_pos (by simpa using h), filter_map_shift,
        List.foldl_cons]
      rw [show insertAt (List.filter (fun a => !p a) xs) ((0, x) : Nat × α).1 ((0, x) : Nat × α).2
          = x :: List.filter (fun a => !p a) xs from insertAt_zero _ _]
      rw [List.foldl_map, foldl_insertAt_shift, ih]
    · rw [List.filter_cons_of_pos (by simpa using h),
        List.filter_cons_of_neg (by simpa using h), filter_map_shift,
        List.foldl_map, foldl_insertAt_shift, ih]

/-! Per-operation rollback lemmas: whenever an operation reports an error
the in-memory state is exactly the state before the call, and when the
persist step fails the persist error is returned unchanged. -/

theorem create_project_err_rollback (s : Storage) (name : String) (d : Option String)
    (h : isErr (create_project s name d).2 = true) :
    (create_project s name d).1.state = s.state := by
  revert h
  unfold create_project
  dsimp only
  split
  · intro _
    rfl
  · split
    · intro h
      simp [isErr] at h
    · intro _
      simp

theorem create_project_persist_err (s : Storage) (name : String) (d : Option String)
    (e : ConfigError)
    (hv : s.state.projects.any (fun p => p.name == name) = false)
    (hs : ∀ st, s.save st = some e) :
    (create_project s name d).2 = .error e := by
  unfold create_project
  simp [hv, hs]

theorem delete_project_err_rollback (s : Storage) (name : String)
    (h : isErr (delete_project s name).2 = true) :
    (delete_project s name).1.state = s.state := by
  revert h
  unfold delete_project
  cases hr : removeFirst (fun p => p.name == name) s.state.projects with
  | none =>
    intro _
    rfl
  | some r =>
    obtain ⟨pos, removed_project, projects1⟩ := r
    dsimp only
    split
    · intro h
      simp [isErr] at h
    · intro _
      dsimp only
      rw [removeFirst_insertAt _ _ _ _ _ hr,
        enum_filter_removeAt (fun a => a.project == name) s.state.api_keys,
        enum_filter_insertAt (fun a => a.project == name) s.state.api_keys]

theorem delete_project_persist_err (s : Storage) (name : String) (e : ConfigError)
    (pos : Nat) (removed : Project) (rest : List Project)
    (hr : removeFirst (fun p => p.name == name) s.state.projects
      = some (pos, removed, rest))
    (hs : ∀ st, s.save st = some e) :
    (delete_project s name).2 = .error e := by
  unfold delete_project
  rw [hr]
  dsimp only
  rw [hs]

theorem create_environment_err_rollback (s : Storage) (project env_name : String)
    (h : isErr (create_environment s project env_name).2 = true) :
    (create_environment s project env_name).1.state = s.state := by
  revert h
  unfold create_environment
  cases hp : s.state.projects.find? (fun p => p.name == project) with
  | none =>
    intro _
    rfl
  | some proj =>
    dsimp only
    split
    · intro _
      rfl
    · split
      · intro h
        simp [isErr] at h
      · intro _
        dsimp only
        rw [modifyFirst_modifyFirst]
        · rw [modifyFirst_fix_of_find? _ _ _ proj hp]
          simp
        · intro a
          rfl

theorem create_environment_persist_err (s : Storage) (project env_name : String)
    (e : ConfigError) (proj : Project)
    (hp : s.state.projects.find? (fun p => p.name == project) = some proj)
    (hv : proj.environments.any (fun q => q.name == env_name) = false)
    (hs : ∀ st, s.save st = some e) :
    (create_environment s project env_name).2 = .error e := by
  unfold create_environment
  simp [hp, hv, hs]

theorem delete_environment_err_rollback (s : Storage) (project env_name : String)
    (h : isErr (delete_environment s project env_name).2 = true) :
    (delete_environment s project env_name).1.state = s.state := by
  revert h
  unfold delete_environment
  cases hp : s.state.projects.find? (fun p => p.name == project) with
  | none =>
    intro _
    rfl
  | some proj =>
    dsimp only
    cases hr : removeFirst (fun q => q.name == env_name) proj.environments with
    | none =>
      intro _
      rfl
    | some r =>
      obtain ⟨env_pos, removed_env, rest⟩ := r
      dsimp only
      split
      · intro h
        simp [isErr] at h
      · intro _
        dsimp only
        rw [modifyFirst_modifyFirst]
        · rw [modifyFirst_fix_of_find? _ _ _ proj hp]
          show ({ proj with
              environments :=
                insertAt (removeAt proj.environments env_pos) env_pos removed_env }
              : Project) = proj
          rw [removeFirst_removeAt _ _ _ _ _ hr,
            removeFirst_insertAt _ _ _ _ _ hr]
        · intro a
          rfl

theorem delete_environment_persist_err (s : Storage) (project env_name : String)
    (e : ConfigError) (proj : Project) (pos : Nat) (removed : Environment)
    (rest : List Environment)
    (hp : s.state.projects.find? (fun p => p.name == project) = some proj)
    (hr : removeFirst (fun q => q.name == env_name) proj.environments
      = some (pos, removed, rest))
    (hs : ∀ st, s.save st = some e) :
    (delete_environment s project env_name).2 = .error e := by
  unfold delete_environment
  rw [hp]
  dsimp only
  rw [hr]
  dsimp only
  rw [hs]

theorem create_config_item_err_rollback (s : Storage) (project env key : String)
    (v : JsonValue) (h : isErr (create_config_item s project env key v).2 = true) :
    (create_config_item s project env key v).1.state = s.state := by
  revert h
  unfold create_config_item
  cases hp : s.state.projects.find? (fun p => p.name == project) with
  | none =>
    intro _
    rfl
  | some proj =>
    dsimp only
    cases he : proj.environments.find? (fun q => q.name == env) with
    | none =>
      intro _
      rfl
    | some environment =>
      dsimp only
      split
      · intro _
        rfl
      · split
        · intro h
          simp [isErr] at h
        · intro _
          dsimp only
          rw [modifyEnvItems_comp]
          exact modifyEnvItems_fix _ _ _ _ proj environment hp he (by simp)

theorem create_config_item_persist_err (s : Storage) (project env key : String)
    (v : JsonValue) (e : ConfigError) (proj : Project) (environment : Environment)
    (hp : s.state.projects.find? (fun p => p.name == project) = some proj)
    (he : proj.environments.find? (fun q => q.name == env) = some environment)
    (hv : environment.config_items.any (fun it => it.key == key) = false)
    (hs : ∀ st, s.save st = some e) :
    (create_config_item s project env key v).2 = .error e := by
  unfold create_config_item
  simp [hp, he, hv, hs]

theorem update_config_item_err_rollback (s : Storage) (project env key : String)
    (v : JsonValue) (h : isErr (update_config_item s project env key v).2 = true) :
    (update_config_item s project env key v).1.state = s.state := by
  revert h
  unfold update_config_item
  cases hp : s.state.projects.find? (fun p => p.name == project) with
  | none =>
    intro _
    rfl
  | some proj =>
    dsimp only
    cases he : proj.environments.find? (fun q => q.name == env) with
    | none =>
      intro _
      rfl
    | some environment =>
      dsimp only
      cases hi : environment.config_items.find? (fun it => it.key == key) with
      | none =>
        intro _
        rfl
      | some item =>
        dsimp only
        split
        · intro h
          simp [isErr] at h
        · intro _
          dsimp only
          rw [modifyEnvItems_comp]
          refine modifyEnvItems_fix _ _ _ _ proj environment hp he ?_
          rw [modifyFirst_modifyFirst]
          · exact modifyFirst_fix_of_find? _ _ _ item hi rfl
          · intro q
            rfl

theorem update_config_item_persist_err (s : Storage) (project env key : String)
    (v : JsonValue) (e : ConfigError) (proj : Project) (environment : Environment)
    (item : ConfigItem)
    (hp : s.state.projects.find? (fun p => p.name == project) = some proj)
    (he : proj.environments.find? (fun q => q.name == env) = some environment)
    (hi : environment.config_items.find? (fun it => it.key == key) = some item)
    (hs : ∀ st, s.save st = some e) :
    (update_config_item s project env key v).2 = .error e := by
  unfold update_config_item
  simp [hp, he, hi, hs]

theorem delete_config_item_err_rollback (s : Storage) (project env key : String)
    (h : isErr (delete_config_item s project env key).2 = true) :
    (delete_config_item s project env key).1.state = s.state := by
  revert h
  unfold delete_config_item
  cases hp : s.state.projects.find? (fun p => p.name == project) with
  | none =>
    intro _
    rfl
  | some proj =>
    dsimp only
    cases he : proj.environments.find? (fun q => q.name == env) with
    | none =>
      intro _
      rfl
    | some environment =>
      dsimp only
      cases hr : removeFirst (fun it => it.key == key) environment.config_items with
      | none =>
        intro _
        rfl
      | some r =>
        obtain ⟨pos, removed, rest⟩ := r
        dsimp only
        split
        · intro h
          simp [isErr] at h
        · intro _
          dsimp only
          rw [modifyEnvItems_comp]
          refine modifyEnvItems_fix _ _ _ _ proj environment hp he ?_
          rw [removeFirst_removeAt _ _ _ _ _ hr, removeFirst_insertAt _ _ _ _ _ hr]

theorem delete_config_item_persist_err (s : Storage) (project env key : String)
    (e : ConfigError) (proj : Project) (environment : Environment)
    (pos : Nat) (removed : ConfigItem) (rest : List ConfigItem)
    (hp : s.state.projects.find? (fun p => p.name == project) = some proj)
    (he : proj.environments.find? (fun q => q.name == env) = some environment)
    (hr : removeFirst (fun it => it.key == key) environment.config_items
      = some (pos, removed, rest))
    (hs : ∀ st, s.save st = some e) :
    (delete_config_item s project env key).2 = .error e := by
  unfold delete_config_item
  simp [hp, he, hr, hs]

theorem create_shared_item_err_rollback (s : Storage) (env key : String)
    (v : JsonValue) (h : isErr (create_shared_item s env key v).2 = true) :
    (create_shared_item s env key v).1.state = s.state := by
  revert h
  unfold create_shared_item
  cases he : s.state.shared_group.environments.find? (fun q => q.name == env) with
  | none =>
    intro _
    rfl
  | some environment =>
    dsimp only
    split
    · intro _
      rfl
    · split
      · intro h
        simp [isErr] at h
      · intro _
        dsimp only
        rw [modifySharedItems_comp]
        exact modifySharedItems_fix _ _ _ environment he (by simp)

theorem create_shared_item_persist_err (s : Storage) (env key : String)
    (v : JsonValue) (e : ConfigError) (environment : Environment)
    (he : s.state.shared_group.environments.find? (fun q => q.name == env)
      = some environment)
    (hv : environment.config_items.any (fun it => it.key == key) = false)
    (hs : ∀ st, s.save st = some e) :
    (create_shared_item s env key v).2 = .error e := by
  unfold create_shared_item
  simp [he, hv, hs]

theorem update_shared_item_err_rollback (s : Storage) (env key : String)
    (v : JsonValue) (h : isErr (update_shared_item s env key v).2 = true) :
    (update_shared_item s env key v).1.state = s.state := by
  revert h
  unfold update_shared_item
  cases he : s.state.shared_group.environments.find? (fun q => q.name == env) with
  | none =>
    intro _
    rfl
  | some environment =>
    dsimp only
    cases hi : environment.config_items.find? (fun it => it.key == key) with
    | none =>
      intro _
      rfl
    | some item =>
      dsimp only
      split
      · intro h
        simp [isErr] at h
      · intro _
        dsimp only
        rw [modifySharedItems_comp]
        refine modifySharedItems_fix _ _ _ environment he ?_
        rw [modifyFirst_modifyFirst]
        · exact modifyFirst_fix_of_find? _ _ _ item hi rfl
        · intro q
          rfl

theorem update_shared_item_persist_err (s : Storage) (env key : String)
    (v : JsonValue) (e : ConfigError) (environment : Environment) (item : ConfigItem)
    (he : s.state.shared_group.environments.find? (fun q => q.name == env)
      = some environment)
    (hi : environment.config_items.find? (fun it => it.key == key) = some item)
    (hs : ∀ st, s.save st = some e) :
    (update_shared_item s env key v).2 = .error e := by
  unfold update_shared_item
  simp [he, hi, hs]

theorem delete_shared_item_err_rollback (s : Storage) (env key : String)
    (h : isErr (delete_shared_item s env key).2 = true) :
    (delete_shared_item s env key).1.state = s.state := by
  revert h
  unfold delete_shared_item
  cases he : s.state.shared_group.environments.find? (fun q => q.name == env) with
  | none =>
    intro _
    rfl
  | some environment =>
    dsimp only
    cases hr : removeFirst (fun it => it.key == key) environment.config_items with
    | none =>
      intro _
      rfl
    | some r =>
      obtain ⟨pos, removed, rest⟩ := r
      dsimp only
      split
      · intro h
        simp [isErr] at h
      · intro _
        dsimp only
        rw [modifySharedItems_comp]
        refine modifySharedItems_fix _ _ _ environment he ?_
        rw [removeFirst_removeAt _ _ _ _ _ hr, removeFirst_insertAt _ _ _ _ _ hr]

theorem delete_shared_item_persist_err (s : Storage) (env key : String)
    (e : ConfigError) (environment : Environment)
    (pos : Nat) (removed : ConfigItem) (rest : List ConfigItem)
    (he : s.state.shared_group.environments.find? (fun q => q.name == env)
      = some environment)
    (hr : removeFirst (fun it => it.key == key) environment.config_items
      = some (pos, removed, rest))
    (hs : ∀ st, s.save st = some e) :
    (delete_shared_item s env key).2 = .error e := by
  unfold delete_shared_item
  simp [he, hr, hs]

theorem generate_api_key_err_rollback (s : Storage) (project newKey : String)
    (h : isErr (generate_api_key s project newKey).2 = true) :
    (generate_api_key s project newKey).1.state = s.state := by
  revert h
  unfold generate_api_key
  dsimp only
  split
  · split
    · intro h
      simp [isErr] at h
    · intro _
      simp
  · intro _
    rfl

theorem generate_api_key_persist_err (s : Storage) (project newKey : String)
    (e : ConfigError)
    (hv : s.state.projects.any (fun p => p.name == project) = true)
    (hs : ∀ st, s.save st = some e) :
    (generate_api_key s project newKey).2 = .error e := by
  unfold generate_api_key
  simp [hv, hs]

theorem revoke_api_key_err_rollback (s : Storage) (key : String)
    (h : isErr (revoke_api_key s key).2 = true) :
    (revoke_api_key s key).1.state = s.state := by
  revert h
  unfold revoke_api_key
  cases hr : removeFirst (fun k => k.key == key) s.state.api_keys with
  | none =>
    intro _
    rfl
  | some r =>
    obtain ⟨pos, removed, api_keys1⟩ := r
    dsimp only
    split
    · intro h
      simp [isErr] at h
    · intro _
      dsimp only
      rw [removeFirst_insertAt _ _ _ _ _ hr]

theorem revoke_api_key_persist_err (s : Storage) (key : String) (e : ConfigError)
    (pos : Nat) (removed : ApiKey) (rest : List ApiKey)
    (hr : removeFirst (fun k => k.key == key) s.state.api_keys
      = some (pos, removed, rest))
    (hs : ∀ st, s.save st = some e) :
    (revoke_api_key s key).2 = .error e := by
  unfold revoke_api_key
  simp [hr, hs]

/-- C2: every Mutation Engine operation (create/update/delete of project,
environment, config item, shared item, API key) that returns an error
leaves the in-memory tree exactly equal to its state before the call —
validation failures change nothing and a persist failure is rolled back
exactly, including cascaded removals restored at their original indices —
and when the persist step fails its error is returned to the caller
unchanged. -/
theorem mutation_error_atomicity :
    (∀ (s : Storage) (n : String) (d : Option String),
      isErr (create_project s n d).2 = true → (create_project s n d).1.state = s.state)
    ∧ (∀ (s : Storage) (n : String),
      isErr (delete_project s n).2 = true → (delete_project s n).1.state = s.state)
    ∧ (∀ (s : Storage) (pr en : String),
      isErr (create_environment s pr en).2 = true →
        (create_environment s pr en).1.state = s.state)
    ∧ (∀ (s : Storage) (pr en : String),
      isErr (delete_environment s pr en).2 = true →
        (delete_environment s pr en).1.state = s.state)
    ∧ (∀ (s : Storage) (pr en k : String) (v : JsonValue),
      isErr (create_config_item s pr en k v).2 = true →
        (create_config_item s pr en k v).1.state = s.state)
    ∧ (∀ (s : Storage) (pr en k : String) (v : JsonValue),
      isErr (update_config_item s pr en k v).2 = true →
        (update_config_item s pr en k v).1.state = s.state)
    ∧ (∀ (s : Storage) (pr en k : String),
      isErr (delete_config_item s pr en k).2 = true →
        (delete_config_item s pr en k).1.state = s.state)
    ∧ (∀ (s : Storage) (en k : String) (v : JsonValue),
      isErr (create_shared_item s en k v).2 = true →
        (create_shared_item s en k v).1.state = s.state)
    ∧ (∀ (s : Storage) (en k : String) (v : JsonValue),
      isErr (update_shared_item s en k v).2 = true →
        (update_shared_item s en k v).1.state = s.state)
    ∧ (∀ (s : Storage) (en k : String),
      isErr (delete_shared_item s en k).2 = true →
        (delete_shared_item s en k).1.state = s.state)
    ∧ (∀ (s : Storage) (pr nk : String),
      isErr (generate_api_key s pr nk).2 = true →
        (generate_api_key s pr nk).1.state = s.state)
    ∧ (∀ (s : Storage) (k : String),
      isErr (revoke_api_key s k).2 = true → (revoke_api_key s k).1.state = s.state)
    ∧ (∀ (s : Storage) (n : String) (d : Option String) (e : ConfigError),
      s.state.projects.any (fun p => p.name == n) = false →
      (∀ st, s.save st = some e) → (create_project s n d).2 = .error e)
    ∧ (∀ (s : Storage) (n : String) (e : ConfigError) (pos : Nat) (rp : Project)
        (rest : List Project),
      removeFirst (fun p => p.name == n) s.state.projects = some (pos, rp, rest) →
      (∀ st, s.save st = some e) → (delete_project s n).2 = .error e)
    ∧ (∀ (s : Storage) (pr en : String) (e : ConfigError) (proj : Project),
      s.state.projects.find? (fun p => p.name == pr) = some proj →
      proj.environments.any (fun q => q.name == en) = false →
      (∀ st, s.save st = some e) → (create_environment s pr en).2 = .error e)
    ∧ (∀ (s : Storage) (pr en : String) (e : ConfigError) (proj : Project)
        (pos : Nat) (re : Environment) (rest : List Environment),
      s.state.projects.find? (fun p => p.name == pr) = some proj →
      removeFirst (fun q => q.name == en) proj.environments = some (pos, re, rest) →
      (∀ st, s.save st = some e) → (delete_environment s pr en).2 = .error e)
    ∧ (∀ (s : Storage) (pr en k : String) (v : JsonValue) (e : ConfigError)
        (proj : Project) (envr : Environment),
      s.state.projects.find? (fun p => p.name == pr) = some proj →
      proj.environments.find? (fun q => q.name == en) = some envr →
      envr.config_items.any (fun it => it.key == k) = false →
      (∀ st, s.save st = some e) → (create_config_item s pr en k v).2 = .error e)
    ∧ (∀ (s : Storage) (pr en k : String) (v : JsonValue) (e : ConfigError)
        (proj : Project) (envr : Environment) (item : ConfigItem),
      s.state.projects.find? (fun p => p.name == pr) = some proj →
      proj.environments.find? (fun q => q.name == en) = some envr →
      envr.config_items.find? (fun it => it.key == k) = some item →
      (∀ st, s.save st = some e) → (update_config_item s pr en k v).2 = .error e)
    ∧ (∀ (s : Storage) (pr en k : String) (e : ConfigError)
        (proj : Project) (envr : Environment) (pos : Nat) (ri : ConfigItem)
        (rest : List ConfigItem),
      s.state.projects.find? (fun p => p.name == pr) = some proj →
      proj.environments.find? (fun q => q.name == en) = some envr →
      removeFirst (fun it => it.key == k) envr.config_items = some (pos, ri, rest) →
      (∀ st, s.save st = some e) → (delete_config_item s pr en k).2 = .error e)
    ∧ (∀ (s : Storage) (en k : String) (v : JsonValue) (e : ConfigError)
        (envr : Environment),
      s.state.shared_group.environments.find? (fun q => q.name == en) = some envr →
      envr.config_items.any (fun it => it.key == k) = false →
      (∀ st, s.save st = some e) → (create_shared_item s en k v).2 = .error e)
    ∧ (∀ (s : Storage) (en k : String) (v : JsonValue) (e : ConfigError)
        (envr : Environment) (item : ConfigItem),
      s.state.shared_group.environments.find? (fun q => q.name == en) = some envr →
      envr.config_items.find? (fun it => it.key == k) = some item →
      (∀ st, s.save st = some e) → (update_shared_item s en k v).2 = .error e)
    ∧ (∀ (s : Storage) (en k : String) (e : ConfigError)
        (envr : Environment) (pos : Nat) (ri : ConfigItem) (rest : List ConfigItem),
      s.state.shared_group.environments.find? (fun q => q.name == en) = some envr →
      removeFirst (fun it => it.key == k) envr.config_items = some (pos, ri, rest) →
      (∀ st, s.save st = some e) → (delete_shared_item s en k).2 = .error e)
    ∧ (∀ (s : Storage) (pr nk : String) (e : ConfigError),
      s.state.projects.any (fun p => p.name == pr) = true →
      (∀ st, s.save st = some e) → (generate_api_key s pr nk).2 = .error e)
    ∧ (∀ (s : Storage) (k : String) (e : ConfigError) (pos : Nat) (rk : ApiKey)
        (rest : List ApiKey),
      removeFirst (fun q => q.key == k) s.state.api_keys = some (pos, rk, rest) →
      (∀ st, s.save st = some e) → (revoke_api_key s k).2 = .error e) :=
  ⟨create_project_err_rollback, delete_project_err_rollback,
   create_environment_err_rollback, delete_environment_err_rollback,
   create_config_item_err_rollback, update_config_item_err_rollback,
   delete_config_item_err_rollback, create_shared_item_err_rollback,
   update_shared_item_err_rollback, delete_shared_item_err_rollback,
   generate_api_key_err_rollback, revoke_api_key_err_rollback,
   fun s n d e hv hs => create_project_persist_err s n d e hv hs,
   fun s n e pos rp rest hr hs => delete_project_persist_err s n e pos rp rest hr hs,
   fun s pr en e proj hp hv hs => create_environment_persist_err s pr en e proj hp hv hs,
   fun s pr en e proj pos re rest hp hr hs =>
     delete_environment_persist_err s pr en e proj pos re rest hp hr hs,
   fun s pr en k v e proj envr hp he hv hs =>
     create_config_item_persist_err s pr en k v e proj envr hp he hv hs,
   fun s pr en k v e proj envr item hp he hi hs =>
     update_config_item_persist_err s pr en k v e proj envr item hp he hi hs,
   fun s pr en k e proj envr pos ri rest hp he hr hs =>
     delete_config_item_persist_err s pr en k e proj envr pos ri rest hp he hr hs,
   fun s en k v e envr he hv hs => create_shared_item_persist_err s en k v e envr he hv hs,
   fun s en k v e envr item he hi hs =>
     update_shared_item_persist_err s en k v e envr item he hi hs,
   fun s en k e envr pos ri rest he hr hs =>
     delete_shared_item_persist_err s en k e envr pos ri rest he hr hs,
   fun s pr nk e hv hs => generate_api_key_persist_err s pr nk e hv hs,
   fun s k e pos rk rest hr hs => revoke_api_key_persist_err s k e pos rk rest hr hs⟩

/-- Persist error used by the mutation witnesses. -/
def errW : ConfigError := .StorageError ("disk full")

/-- Storage over the sample tree whose persistence always fails. -/
def sFailW : Storage := { state := stW, save := fun _ => some errW }

/-- Witness for C2: every operation run against the failing storage at a
concrete input reports an error yet leaves the state untouched, and the
persist error is surfaced unchanged. -/
theorem mutation_error_atomicity_witness :
    (isErr (create_project sFailW ("newp") none).2 = true
      ∧ (create_project sFailW ("newp") none).1.state = sFailW.state)
    ∧ (isErr (delete_project sFailW ("app")).2 = true
      ∧ (delete_project sFailW ("app")).1.state = sFailW.state)
    ∧ (isErr (create_environment sFailW ("app") ("staging")).2 = true
      ∧ (create_environment sFailW ("app") ("staging")).1.state = sFailW.state)
    ∧ (isErr (delete_environment sFailW ("app") ("default")).2 = true
      ∧ (delete_environment sFailW ("app") ("default")).1.state = sFailW.state)
    ∧ (isErr (create_config_item sFailW ("app") ("default") ("newkey") .null).2 = true
      ∧ (create_config_item sFailW ("app") ("default") ("newkey") .null).1.state
          = sFailW.state)
    ∧ (isErr (update_config_item sFailW ("app") ("default") ("log_level") .null).2 = true
      ∧ (update_config_item sFailW ("app") ("default") ("log_level") .null).1.state
          = sFailW.state)
    ∧ (isErr (delete_config_item sFailW ("app") ("default") ("log_level")).2 = true
      ∧ (delete_config_item sFailW ("app") ("default") ("log_level")).1.state
          = sFailW.state)
    ∧ (isErr (create_shared_item sFailW ("default") ("newkey") .null).2 = true
      ∧ (create_shared_item sFailW ("default") ("newkey") .null).1.state = sFailW.state)
    ∧ (isErr (update_shared_item sFailW ("default") ("timeout") .null).2 = true
      ∧ (update_shared_item sFailW ("default") ("timeout") .null).1.state = sFailW.state)
    ∧ (isErr (delete_shared_item sFailW ("default") ("timeout")).2 = true
      ∧ (delete_shared_item sFailW ("default") ("timeout")).1.state = sFailW.state)
    ∧ (isErr (generate_api_key sFailW ("app") ("uuid-xyz")).2 = true
      ∧ (generate_api_key sFailW ("app") ("uuid-xyz")).1.state = sFailW.state)
    ∧ (isErr (revoke_api_key sFailW ("test-key-123")).2 = true
      ∧ (revoke_api_key sFailW ("test-key-123")).1.state = sFailW.state)
    ∧ ((sFailW.state.projects.any (fun p => p.name == ("newp")) = false)
      ∧ (create_project sFailW ("newp") none).2 = .error errW)
    ∧ ((removeFirst (fun p => p.name == ("app")) sFailW.state.projects
          = some (0, projW, []))
      ∧ (delete_project sFailW ("app")).2 = .error errW)
    ∧ ((create_environment sFailW ("app") ("staging")).2 = .error errW)
    ∧ ((delete_environment sFailW ("app") ("default")).2 = .error errW)
    ∧ ((create_config_item sFailW ("app") ("default") ("newkey") .null).2 = .error errW)
    ∧ ((update_config_item sFailW ("app") ("default") ("log_level") .null).2
        = .error errW)
    ∧ ((delete_config_item sFailW ("app") ("default") ("log_level")).2 = .error errW)
    ∧ ((create_shared_item sFailW ("default") ("newkey") .null).2 = .error errW)
    ∧ ((update_shared_item sFailW ("default") ("timeout") .null).2 = .error errW)
    ∧ ((delete_shared_item sFailW ("default") ("timeout")).2 = .error errW)
    ∧ ((generate_api_key sFailW ("app") ("uuid-xyz")).2 = .error errW)
    ∧ ((revoke_api_key sFailW ("test-key-123")).2 = .error errW) := by
  obtain ⟨r1, r2, r3, r4, r5, r6, r7, r8, r9, r10, r11, r12,
    q1, q2, q3, q4, q5, q6, q7, q8, q9, q10, q11, q12⟩ := mutation_error_atomicity
  refine ⟨⟨by rfl, r1 sFailW ("newp") none (by rfl)⟩,
    ⟨by rfl, r2 sFailW ("app") (by rfl)⟩,
    ⟨by rfl, r3 sFailW ("app") ("staging") (by rfl)⟩,
    ⟨by rfl, r4 sFailW ("app") ("default") (by rfl)⟩,
    ⟨by rfl, r5 sFailW ("app") ("default") ("newkey") .null (by rfl)⟩,
    ⟨by rfl, r6 sFailW ("app") ("default") ("log_level") .null (by rfl)⟩,
    ⟨by rfl, r7 sFailW ("app") ("default") ("log_level") (by rfl)⟩,
    ⟨by rfl, r8 sFailW ("default") ("newkey") .null (by rfl)⟩,
    ⟨by rfl, r9 sFailW ("default") ("timeout") .null (by rfl)⟩,
    ⟨by rfl, r10 sFailW ("default") ("timeout") (by rfl)⟩,
    ⟨by rfl, r11 sFailW ("app") ("uuid-xyz") (by rfl)⟩,
    ⟨by rfl, r12 sFailW ("test-key-123") (by rfl)⟩,
    ⟨by rfl, q1 sFailW ("newp") none errW (by rfl) (fun st => rfl)⟩,
    ⟨by rfl, q2 sFailW ("app") errW 0 projW [] (by rfl) (fun st => rfl)⟩,
    q3 sFailW ("app") ("staging") errW projW (by rfl) (by rfl) (fun st => rfl),
    q4 sFailW ("app") ("default") errW projW 0 envW [] (by rfl) (by rfl)
      (fun st => rfl),
    q5 sFailW ("app") ("default") ("newkey") .null errW projW envW (by rfl) (by rfl)
      (by rfl) (fun st => rfl),
    q6 sFailW ("app") ("default") ("log_level") .null errW projW envW
      ⟨("log_level"), .str ("debug")⟩ (by rfl) (by rfl) (by rfl) (fun st => rfl),
    q7 sFailW ("app") ("default") ("log_level") errW projW envW 0
      ⟨("log_level"), .str ("debug")⟩ [⟨("db_host"), .str ("localhost")⟩]
      (by rfl) (by rfl) (by rfl) (fun st => rfl),
    q8 sFailW ("default") ("newkey") .null errW sharedEnvW (by rfl) (by rfl)
      (fun st => rfl),
    q9 sFailW ("default") ("timeout") .null errW sharedEnvW ⟨("timeout"), .num 30⟩
      (by rfl) (by rfl) (fun st => rfl),
    q10 sFailW ("default") ("timeout") errW sharedEnvW 1 ⟨("timeout"), .num 30⟩
      [⟨("log_level"), .str ("info")⟩] (by rfl) (by rfl) (fun st => rfl),
    q11 sFailW ("app") ("uuid-xyz") errW (by rfl) (fun st => rfl),
    q12 sFailW ("test-key-123") errW 0 ⟨("test-key-123"), ("app")⟩ [] (by rfl)
      (fun st => rfl)⟩

/-- C8: deleting an existing project (with persistence succeeding) succeeds
and removes exactly that project — its environments and their config items
leave with it — together with every API key whose `project` field equals
it; the remaining projects are the original list with that one project cut
out (order preserved), the remaining API keys are exactly those of other
projects in their original order, and the shared group is unchanged. -/
theorem delete_project_frame (s : Storage) (p : String)
    (pos : Nat) (proj : Project) (rest : List Project)
    (hr : removeFirst (fun q => q.name == p) s.state.projects = some (pos, proj, rest))
    (hsave : ∀ st, s.save st = none) :
    (delete_project s p).2 = .ok ()
    ∧ (delete_project s p).1.state.projects = rest
    ∧ (proj.name == p) = true
    ∧ (∃ pre post, s.state.projects = pre ++ proj :: post ∧ rest = pre ++ post
        ∧ ∀ q ∈ pre, (q.name == p) = false)
    ∧ (delete_project s p).1.state.api_keys
        = s.state.api_keys.filter (fun k => !(k.project == p))
    ∧ (delete_project s p).1.state.shared_group = s.state.shared_group := by
  have hd : delete_project s p
      = ({ s with
            state :=
              { projects := rest,
                shared_group := s.state.shared_group,
                api_keys :=
                  s.state.api_keys.filter (fun k => !(k.project == p)) } },
          .ok ()) := by
    unfold delete_project
    rw [hr]
    dsimp only
    rw [hsave]
    dsimp only
    rw [enum_filter_removeAt (fun a => a.project == p) s.state.api_keys]
  obtain ⟨hpa, pre, post, h1, h2, h3⟩ := removeFirst_split _ _ _ _ _ hr
  exact ⟨by rw [hd], by rw [hd], hpa, ⟨pre, post, h1, h2, h3⟩, by rw [hd], by rw [hd]⟩

/-- Second sample project, used by the frame witness. -/
def projW2 : Project := { name := ("other"), description := none, environments := [] }

/-- Sample tree with two projects and API keys for both. -/
def stW8 : ConfigState :=
  { projects := [projW2, projW],
    shared_group := ⟨[sharedEnvW]⟩,
    api_keys := [⟨("k-other"), ("other")⟩, ⟨("test-key-123"), ("app")⟩,
      ⟨("k2-app"), ("app")⟩] }

/-- Storage over the two-project tree whose persistence always succeeds. -/
def sOk8 : Storage := { state := stW8, save := fun _ => none }

/-- Witness for C8: deleting `app` from the two-project tree keeps `other`,
its API key and the shared group, and drops both keys bound to `app`. -/
theorem delete_project_frame_witness :
    (removeFirst (fun q => q.name == ("app")) sOk8.state.projects
      = some (1, projW, [projW2]))
    ∧ ((delete_project sOk8 ("app")).2 = .ok ()
      ∧ (delete_project sOk8 ("app")).1.state.projects = [projW2]
      ∧ (projW.name == ("app")) = true
      ∧ (∃ pre post, sOk8.state.projects = pre ++ projW :: post
          ∧ [projW2] = pre ++ post
          ∧ ∀ q ∈ pre, (q.name == ("app")) = false)
      ∧ (delete_project sOk8 ("app")).1.state.api_keys
          = sOk8.state.api_keys.filter (fun k => !(k.project == ("app")))
      ∧ (delete_project sOk8 ("app")).1.state.shared_group
          = sOk8.state.shared_group) :=
  ⟨by rfl,
    delete_project_frame sOk8 ("app") 1 projW [projW2] (by rfl) (fun st => rfl)⟩

/-- C9: `create_project` on a fresh name appends (when persistence
succeeds) a project whose environment list is exactly one environment
named `default` with zero config items, and returns it; on an existing
name it returns `ProjectAlreadyExists` and changes nothing. -/
theorem create_project_correct (s : Storage) (n : String) (d : Option String) :
    (s.state.projects.any (fun p => p.name == n) = false →
      (∀ st, s.save st = none) →
      create_project s n d
        = ({ s with
              state :=
                { s.state with
                  projects := s.state.projects ++ [⟨n, d, [⟨("default"), []⟩]⟩] } },
            .ok ⟨n, d, [⟨("default"), []⟩]⟩))
    ∧ (s.state.projects.any (fun p => p.name == n) = true →
      create_project s n d = (s, .error (.ProjectAlreadyExists n))) := by
  constructor
  · intro hv hsave
    unfold create_project
    simp [hv, hsave]
  · intro hv
    unfold create_project
    simp [hv]

/-- Storage over the sample tree whose persistence always succeeds. -/
def sOkW : Storage := { state := stW, save := fun _ => none }

/-- Witness for C9: creating `newp` appends the project with its single
empty `default` environment; creating `app` again is rejected. -/
theorem create_project_correct_witness :
    (sOkW.state.projects.any (fun p => p.name == ("newp")) = false)
    ∧ (create_project sOkW ("newp") none
        = ({ sOkW with
              state :=
                { sOkW.state with
                  projects :=
                    sOkW.state.projects ++ [⟨("newp"), none, [⟨("default"), []⟩]⟩] } },
            .ok ⟨("newp"), none, [⟨("default"), []⟩]⟩))
    ∧ (sOkW.state.projects.any (fun p => p.name == ("app")) = true)
    ∧ (create_project sOkW ("app") none
        = (sOkW, .error (.ProjectAlreadyExists ("app")))) :=
  ⟨by rfl,
    (create_project_correct sOkW ("newp") none).1 (by rfl) (fun st => rfl),
    by rfl,
    (create_project_correct sOkW ("app") none).2 (by rfl)⟩

/-! The read-only directory-mode variant (src/src/storage/dir.rs,
src/src/core/mod.rs, src/src/api/handlers.rs).  Its state keeps projects
and environments in `HashMap`s; they are modelled as association lists,
again observed only through lookups and linear scans. -/

/-- An API key entry of a `project.yaml` (only its `key` field is ever
read by the directory-mode code). -/
structure MetaApiKey where
  key : String

/-- `ProjectMeta`: description plus bound API keys, parsed from
`project.yaml` (defaults to empty on parse failure). -/
structure ProjectMeta where
  description : Option String
  api_keys : List MetaApiKey

/-- `ProjectData`: metadata plus one flat key→value map per environment. -/
structure ProjectData where
  meta : ProjectMeta
  environments : List (String × List (String × JsonValue))

/-- The directory-mode `ConfigState` of src/src/storage/dir.rs. -/
structure DirState where
  projects : List (String × ProjectData)
  shared : List (String × List (String × JsonValue))

/-- The nested loop of `ConfigCenter::validate_api_key` in
src/src/core/mod.rs (lines 77-87): first project holding an exact-match
key wins; returns the project name and the stored key. -/
def findApiKey : List (String × ProjectData) → String → Option (String × String)
  | [], _ => none
  | pd :: rest, key =>
    match pd.2.meta.api_keys.find? (fun ak => ak.key == key) with
    | some ak => some (pd.1, ak.key)
    | none => findApiKey rest key

/-- `ConfigCenter::validate_api_key`: exact-match lookup across all API
keys, `Unauthorized` on miss. -/
def validate_api_key (st : DirState) (key : String) :
    Except ConfigError (String × String) :=
  match findApiKey st.projects key with
  | some r => .ok r
  | none => .error (.Unauthorized ("invalid api key"))

/-- `validate_request` from src/src/api/handlers.rs (lines 63-87): missing
header → `Unauthorized`; unknown key → the `validate_api_key` error;
key bound to a different project than the addressed one → `Forbidden`. -/
def validate_request (st : DirState) (headerKey : Option String) (project : String) :
    Except ConfigError Unit :=
  match headerKey with
  | none => .error (.Unauthorized ("missing X-API-Key header"))
  | some api_key =>
    match validate_api_key st api_key with
    | .error e => .error e
    | .ok kp =>
      if kp.1 != project then
        .error (.Forbidden (("api key not authorized for project: ") ++ project))
      else
        .ok ()

theorem findApiKey_eq_none (projects : List (String × ProjectData)) (k : String)
    (h : ∀ pd ∈ projects, ∀ ak ∈ pd.2.meta.api_keys, (ak.key == k) = false) :
    findApiKey projects k = none := by
  induction projects with
  | nil => rfl
  | cons pd rest ih =>
    simp only [findApiKey]
    cases hf : pd.2.meta.api_keys.find? (fun ak => ak.key == k) with
    | some ak =>
      have hpred := List.find?_some hf
      have hmem := List.mem_of_find?_eq_some hf
      rw [h pd (List.mem_cons_self pd rest) ak hmem] at hpred
      cases hpred
    | none =>
      exact ih (fun pd2 hm => h pd2 (List.mem_cons_of_mem pd hm))

theorem findApiKey_eq_some (projects : List (String × ProjectData)) (k A sk : String)
    (h : findApiKey projects k = some (A, sk)) :
    sk = k ∧ ∃ pd ∈ projects, pd.1 = A ∧ ∃ ak ∈ pd.2.meta.api_keys, ak.key = k := by
  induction projects with
  | nil => cases h
  | cons pd rest ih =>
    rw [findApiKey] at h
    cases hf : pd.2.meta.api_keys.find? (fun ak => ak.key == k) with
    | some ak =>
      rw [hf] at h
      cases h
      have hp := List.find?_some hf
      have hk : ak.key = k := beq_iff_eq.mp hp
      exact ⟨hk, pd, List.mem_cons_self pd rest, rfl,
        ak, List.mem_of_find?_eq_some hf, hk⟩
    | none =>
      rw [hf] at h
      obtain ⟨h1, pd2, hm, h2, ak, hak, h3⟩ := ih h
      exact ⟨h1, pd2, List.mem_cons_of_mem pd hm, h2, ak, hak, h3⟩

theorem findApiKey_isSome_of_exists (projects : List (String × ProjectData))
    (k : String)
    (h : ∃ pd ∈ projects, ∃ ak ∈ pd.2.meta.api_keys, ak.key = k) :
    (findApiKey projects k).isSome = true := by
  induction projects with
  | nil =>
    obtain ⟨pd, hm, _⟩ := h
    cases hm
  | cons pd0 rest ih =>
    simp only [findApiKey]
    cases hf : pd0.2.meta.api_keys.find? (fun ak => ak.key == k) with
    | some ak => rfl
    | none =>
      obtain ⟨pd, hm, ak, hak, hk⟩ := h
      rcases List.mem_cons.mp hm with hm | hm
      · subst hm
        have := List.find?_eq_none.mp hf ak hak
        rw [hk] at this
        simp at this
      · exact ih ⟨pd, hm, ak, hak, hk⟩

/-- C5: `validate_api_key` returns `Unauthorized` exactly when no stored
key matches the looked-up key; a hit returns the owning project and the
stored key; and a key valid for project A checked against a different
target project B is rejected with `Forbidden` (a different error kind
than `Unauthorized`). -/
theorem api_key_access_control (st : DirState) (k : String) :
    ((∀ pd ∈ st.projects, ∀ ak ∈ pd.2.meta.api_keys, (ak.key == k) = false) →
      validate_api_key st k = .error (.Unauthorized ("invalid api key")))
    ∧ (∀ A sk, validate_api_key st k = .ok (A, sk) →
        sk = k ∧ ∃ pd ∈ st.projects, pd.1 = A ∧ ∃ ak ∈ pd.2.meta.api_keys, ak.key = k)
    ∧ ((∃ pd ∈ st.projects, ∃ ak ∈ pd.2.meta.api_keys, ak.key = k) →
        isErr (validate_api_key st k) = false)
    ∧ (∀ A B, validate_api_key st k = .ok (A, k) → (A == B) = false →
        validate_request st (some k) B
          = .error (.Forbidden (("api key not authorized for project: ") ++ B)))
    ∧ (∀ m1 m2, ConfigError.Forbidden m1 ≠ ConfigError.Unauthorized m2) := by
  refine ⟨?_, ?_, ?_, ?_, ?_⟩
  · intro h
    unfold validate_api_key
    rw [findApiKey_eq_none st.projects k h]
  · intro A sk h
    unfold validate_api_key at h
    cases hf : findApiKey st.projects k with
    | none => rw [hf] at h; cases h
    | some r =>
      rw [hf] at h
      cases h
      exact findApiKey_eq_some st.projects k A sk (by rw [hf])
  · intro h
    unfold validate_api_key
    cases hf : findApiKey st.projects k with
    | none =>
      have := findApiKey_isSome_of_exists st.projects k h
      rw [hf] at this
      cases this
    | some r => rfl
  · intro A B h hne
    unfold validate_request
    dsimp only
    rw [h]
    simp only [bne, hne]
    rfl
  · intro m1 m2 hc
    cases hc

/-- Sample directory-mode project data holding one API key. -/
def pdW : ProjectData :=
  { meta := { description := none, api_keys := [⟨("key-123")⟩] },
    environments := [] }

/-- Sample directory-mode state: one project `app` owning `key-123`. -/
def dirW : DirState := { projects := [(("app"), pdW)], shared := [] }

/-- Witness for C5: the unknown key is `Unauthorized`, the known key
resolves to its project, and the known key aimed at another project is
`Forbidden`. -/
theorem api_key_access_control_witness :
    (validate_api_key dirW ("bad-key")
      = .error (.Unauthorized ("invalid api key")))
    ∧ (validate_api_key dirW ("key-123") = .ok (("app"), ("key-123")))
    ∧ (isErr (validate_api_key dirW ("key-123")) = false)
    ∧ (validate_request dirW (some ("key-123")) ("other"))
        = .error (.Forbidden (("api key not authorized for project: ") ++ ("other"))) := by
  obtain ⟨h1, _, h3, h4, _⟩ := api_key_access_control dirW ("bad-key")
  obtain ⟨_, _, h3b, h4b, _⟩ := api_key_access_control dirW ("key-123")
  refine ⟨?_, by rfl, ?_, ?_⟩
  · refine h1 ?_
    intro pd hm ak hak
    have hm2 : pd = (("app"), pdW) := by simpa [dirW] using hm
    subst hm2
    have hak2 : ak = ⟨("key-123")⟩ := by simpa [pdW] using hak
    subst hak2
    rfl
  · exact h3b ⟨(("app"), pdW), List.mem_singleton.mpr rfl,
      ⟨("key-123")⟩, List.mem_singleton.mpr rfl, rfl⟩
  · exact h4b ("app") ("other") (by rfl) (by rfl)

/-! Variable substitution: `substitute_env_in_string` from
src/src/core/mod.rs (lines 187-210).  The Rust loop rescans the evolving
string from `search_from`, which always sits right after the last emitted
text, so the prefix before it is final; the loop is therefore modelled as
a recursion over the not-yet-scanned suffix.  The process environment is
a function `String → Option String`.  The recursion is driven by a fuel
counter: every iteration consumes at least one character of the suffix,
so the suffix length is always enough fuel, and `substitute_env_in_string`
starts with exactly that. -/

/-- `str::find` for a character-list needle: index of the first occurrence
of `needle` as a contiguous run inside `hay`. -/
def findSubstr (needle : List Char) : List Char → Option Nat
  | [] => if needle = [] then some 0 else none
  | c :: rest =>
    if needle.isPrefixOf (c :: rest) then some 0
    else (findSubstr needle rest).map (fun n => n + 1)

/-- The token opener `$` followed by a left brace. -/
def dollarBrace : List Char := ['$', '\x7b']

/-- The token closer: a right brace. -/
def closeBrace : List Char := ['\x7d']

/-- One-loop-iteration-per-fuel-unit rendering of the `while let` loop of
`substitute_env_in_string`: find the next token opener, find the closer
from the opener on (`break` when absent), look the name up, and either
splice the value and resume right after it or keep the token verbatim and
resume after its closer. -/
def substChars (envf : String → Option String) : Nat → List Char → List Char
  | 0, rest => rest
  | fuel + 1, rest =>
    match findSubstr dollarBrace rest with
    | none => rest
    | some i =>
      match findSubstr closeBrace (rest.drop i) with
      | none => rest
      | some j =>
        let var_name := String.mk (((rest.drop i).take j).drop 2)
        match envf var_name with
        | some val =>
          rest.take i ++ val.data ++ substChars envf fuel ((rest.drop i).drop (j + 1))
        | none =>
          rest.take (i + j + 1) ++ substChars envf fuel (rest.drop (i + j + 1))

/-- `substitute_env_in_string`: run the loop on the whole string. -/
def substitute_env_in_string (envf : String → Option String) (s : String) : String :=
  String.mk (substChars envf s.data.length s.data)

/-- Process environment with only `X=hello` set. -/
def envX : String → Option String :=
  fun n => if n == ("X") then some ("hello") else none

/-- Process environment with `A=1` and `B=2` set. -/
def envAB : String → Option String :=
  fun n => if n == ("A") then some ("1") else if n == ("B") then some ("2") else none

/-- C3: a token whose variable is set is replaced by the variable's value
and scanning resumes immediately after the inserted text (the replacement
equation), so consecutive and repeated tokens all resolve; in particular
with `X=hello` the string `a${X}b${X}c` becomes `ahellobhelloc` and with
`A=1`, `B=2` the string `${A}${B}` becomes `12`. -/
theorem substitution_replaces_and_resumes :
    (∀ (envf : String → Option String) (fuel : Nat) (rest : List Char)
        (i j : Nat) (val : String),
      rest.length ≤ fuel →
      findSubstr dollarBrace rest = some i →
      findSubstr closeBrace (rest.drop i) = some j →
      envf (String.mk (((rest.drop i).take j).drop 2)) = some val →
      substChars envf fuel rest
        = rest.take i ++ val.data
            ++ substChars envf (fuel - 1) ((rest.drop i).drop (j + 1)))
    ∧ substitute_env_in_string envX ("a$\x7bX\x7db$\x7bX\x7dc") = ("ahellobhelloc")
    ∧ substitute_env_in_string envAB ("$\x7bA\x7d$\x7bB\x7d") = ("12") := by
  refine ⟨?_, by decide, by decide⟩
  intro envf fuel rest i j val hlen h1 h2 h3
  cases fuel with
  | zero =>
    rw [List.eq_nil_of_length_eq_zero (Nat.le_zero.mp hlen)] at h1
    cases h1
  | succ f =>
    show substChars envf (f + 1) rest = _
    rw [substChars, h1]
    dsimp only
    rw [h2]
    dsimp only
    rw [h3]
    rfl

/-- C7: a token whose variable is unset stays verbatim, delimiters
included, no error is reported, and scanning continues after the token so
later tokens still resolve; in particular `${MISSING}` is returned
unchanged and `${MISSING}x${X}` becomes `${MISSING}xhello` when only `X`
is set. -/
theorem substitution_unset_verbatim :
    (∀ (envf : String → Option String) (fuel : Nat) (rest : List Char) (i j : Nat),
      rest.length ≤ fuel →
      findSubstr dollarBrace rest = some i →
      findSubstr closeBrace (rest.drop i) = some j →
      envf (String.mk (((rest.drop i).take j).drop 2)) = none →
      substChars envf fuel rest
        = rest.take (i + j + 1) ++ substChars envf (fuel - 1) (rest.drop (i + j + 1)))
    ∧ substitute_env_in_string envX ("$\x7bMISSING\x7d") = ("$\x7bMISSING\x7d")
    ∧ substitute_env_in_string envX ("$\x7bMISSING\x7dx$\x7bX\x7d")
        = ("$\x7bMISSING\x7dxhello") := by
  refine ⟨?_, by decide, by decide⟩
  intro envf fuel rest i j hlen h1 h2 h3
  cases fuel with
  | zero =>
    rw [List.eq_nil_of_length_eq_zero (Nat.le_zero.mp hlen)] at h1
    cases h1
  | succ f =>
    show substChars envf (f + 1) rest = _
    rw [substChars, h1]
    dsimp only
    rw [h2]
    dsimp only
    rw [h3]
    rfl

/-- C10: when the first remaining `${` has no closing brace anywhere after
it, the whole remainder is returned verbatim and scanning stops, without
an error; in particular `${UNCLOSED` is returned unchanged, and
`a${X}b${UNCLOSED` still resolves the earlier token. -/
theorem substitution_unclosed_verbatim :
    (∀ (envf : String → Option String) (fuel : Nat) (rest : List Char) (i : Nat),
      rest.length ≤ fuel →
      findSubstr dollarBrace rest = some i →
      findSubstr closeBrace (rest.drop i) = none →
      substChars envf fuel rest = rest)
    ∧ substitute_env_in_string envX ("$\x7bUNCLOSED") = ("$\x7bUNCLOSED")
    ∧ substitute_env_in_string envX ("a$\x7bX\x7db$\x7bUNCLOSED")
        = ("ahellob$\x7bUNCLOSED") := by
  refine ⟨?_, by decide, by decide⟩
  intro envf fuel rest i hlen h1 h2
  cases fuel with
  | zero => rfl
  | succ f =>
    show substChars envf (f + 1) rest = rest
    rw [substChars, h1]
    dsimp only
    rw [h2]

/-- Witness for C3: the replacement equation at the concrete suffix
`${X}y` with `X=hello`. -/
theorem substitution_replaces_and_resumes_witness :
    (("$\x7bX\x7dy").data.length ≤ 5)
    ∧ (findSubstr dollarBrace ("$\x7bX\x7dy").data = some 0)
    ∧ (findSubstr closeBrace (("$\x7bX\x7dy").data.drop 0) = some 3)
    ∧ (envX (String.mk (((("$\x7bX\x7dy").data.drop 0).take 3).drop 2))
        = some ("hello"))
    ∧ substChars envX 5 ("$\x7bX\x7dy").data
        = ("$\x7bX\x7dy").data.take 0 ++ ("hello").data
            ++ substChars envX (5 - 1) ((("$\x7bX\x7dy").data.drop 0).drop (3 + 1)) :=
  ⟨by decide, by decide, by decide, by rfl,
    substitution_replaces_and_resumes.1 envX 5 (("$\x7bX\x7dy").data) 0 3 ("hello")
      (by decide) (by decide) (by decide) (by rfl)⟩

/-- Witness for C7: the verbatim-skip equation at the concrete suffix
`${Q}y` with `Q` unset. -/
theorem substitution_unset_verbatim_witness :
    (("$\x7bQ\x7dy").data.length ≤ 5)
    ∧ (findSubstr dollarBrace ("$\x7bQ\x7dy").data = some 0)
    ∧ (findSubstr closeBrace (("$\x7bQ\x7dy").data.drop 0) = some 3)
    ∧ (envX (String.mk (((("$\x7bQ\x7dy").data.drop 0).take 3).drop 2)) = none)
    ∧ substChars envX 5 ("$\x7bQ\x7dy").data
        = ("$\x7bQ\x7dy").data.take (0 + 3 + 1)
            ++ substChars envX (5 - 1) (("$\x7bQ\x7dy").data.drop (0 + 3 + 1)) :=
  ⟨by decide, by decide, by decide, by rfl,
    substitution_unset_verbatim.1 envX 5 (("$\x7bQ\x7dy").data) 0 3
      (by decide) (by decide) (by decide) (by rfl)⟩

/-- Witness for C10: the break equation at the concrete suffix `x${Q`. -/
theorem substitution_unclosed_verbatim_witness :
    (("x$\x7bQ").data.length ≤ 4)
    ∧ (findSubstr dollarBrace ("x$\x7bQ").data = some 1)
    ∧ (findSubstr closeBrace (("x$\x7bQ").data.drop 1) = none)
    ∧ substChars envX 4 ("x$\x7bQ").data = ("x$\x7bQ").data :=
  ⟨by decide, by decide, by decide,
    substitution_unclosed_verbatim.1 envX 4 (("x$\x7bQ").data) 1
      (by decide) (by decide) (by decide)⟩

/-! Construction from durable storage: `Storage::load` of the snapshot
mode (src/src/storage/file.rs, lines 14-37) and of the directory mode
(src/src/storage/dir.rs, lines 15-31).  Filesystem interaction is
modelled by its outcome: the snapshot file is absent, unreadable or
readable with some contents, `serde_json::from_str` is the oracle
`parse`, and each scanned directory file carries its own parse outcome
(`none` for a file that failed to read, parse, or whose top level is not
a mapping — exactly the cases `load_yaml_map` turns into `None`). -/

/-- Outcome of probing and reading the snapshot file. -/
inductive FileProbe where
  | absent : FileProbe
  | unreadable : FileProbe
  | readable : String → FileProbe

/-- `Storage::empty_state` from src/src/storage/file.rs. -/
def empty_state : ConfigState :=
  { projects := [], api_keys := [], shared_group := ⟨[]⟩ }

/-- Snapshot-mode `Storage::load`: an absent file, an unreadable file and
unparseable contents all degrade (with a logged warning) to the empty
state; a parsed snapshot yields its state.  Every branch returns `Ok`. -/
def file_load (parse : String → Option ConfigState) (file : FileProbe) :
    Except ConfigError ConfigState :=
  match file with
  | .absent => .ok empty_state
  | .unreadable => .ok empty_state
  | .readable content =>
    match parse content with
    | some st => .ok st
    | none => .ok empty_state

/-- The scanned directory tree: per project directory its name, the parse
outcome of `project.yaml`, and the environment files (stem plus parse
outcome); plus the shared directory's files. -/
structure DirTree where
  present : Bool
  projects :
    List (String × Option ProjectMeta
      × List (String × Option (List (String × JsonValue))))
  shared : List (String × Option (List (String × JsonValue)))

/-- `load_env_configs`: keep each parseable environment file under its
stem, skip the reserved `project` stem and every failed parse. -/
def load_env_configs
    (files : List (String × Option (List (String × JsonValue)))) :
    List (String × List (String × JsonValue)) :=
  files.filterMap (fun f =>
    if f.1 == ("project") then none
    else (f.2).map (fun m => (f.1, m)))

/-- `load_projects`: one entry per project directory; a failed
`project.yaml` parse falls back to the default metadata. -/
def load_projects
    (dirs : List (String × Option ProjectMeta
      × List (String × Option (List (String × JsonValue))))) :
    List (String × ProjectData) :=
  dirs.map (fun d =>
    (d.1,
      { meta := d.2.1.getD { description := none, api_keys := [] },
        environments := load_env_configs d.2.2 }))

/-- `load_shared`: keep each parseable shared file under its stem. -/
def load_shared (files : List (String × Option (List (String × JsonValue)))) :
    List (String × List (String × JsonValue)) :=
  files.filterMap (fun f => (f.2).map (fun m => (f.1, m)))

/-- Directory-mode `Storage::load`: a missing root yields the empty state;
otherwise the scan of `projects/` and `shared/`.  Every branch is `Ok`. -/
def dir_load (d : DirTree) : Except ConfigError DirState :=
  if d.present then
    .ok { projects := load_projects d.projects, shared := load_shared d.shared }
  else
    .ok { projects := [], shared := [] }

/-- Counterexample for C4: a present snapshot whose contents do not parse
into the root shape does NOT fail construction — `Storage::load` logs and
returns the empty state, so the claimed fatal error does not exist. -/
theorem snapshot_parse_failure_not_fatal :
    file_load (fun _ => none) (.readable ("not json")) = .ok empty_state
    ∧ isErr (file_load (fun _ => none) (.readable ("not json"))) = false :=
  ⟨rfl, rfl⟩

/-- C4 (amended): construction from a durable location never fails.  An
absent, unreadable or unparseable snapshot yields the empty state, a
parseable snapshot yields its parsed state, directory-mode construction
always yields a tree, and an individual malformed directory file is
skipped rather than aborting the load. -/
theorem construction_never_fatal :
    (∀ (parse : String → Option ConfigState) (file : FileProbe),
      isErr (file_load parse file) = false)
    ∧ (∀ parse content st, parse content = some st →
        file_load parse (.readable content) = .ok st)
    ∧ (∀ (parse : String → Option ConfigState) content, parse content = none →
        file_load parse (.readable content) = .ok empty_state)
    ∧ (∀ parse, file_load parse .absent = .ok empty_state
        ∧ file_load parse .unreadable = .ok empty_state)
    ∧ (∀ d : DirTree, isErr (dir_load d) = false)
    ∧ (∀ (stem : String) (files : List (String × Option (List (String × JsonValue)))),
        load_env_configs ((stem, none) :: files) = load_env_configs files) := by
  refine ⟨?_, ?_, ?_, ?_, ?_, ?_⟩
  · intro parse file
    cases file with
    | absent => rfl
    | unreadable => rfl
    | readable c =>
      cases hp : parse c <;> simp [file_load, hp, isErr]
  · intro parse content st h
    simp [file_load, h]
  · intro parse content h
    simp [file_load, h]
  · intro parse
    exact ⟨rfl, rfl⟩
  · intro d
    cases hd : d.present <;> simp [dir_load, hd, isErr]
  · intro stem files
    by_cases h : stem == ("project") <;> simp [load_env_configs, h]

/-- Witness for C4's amended theorem at concrete parse oracles: a parsed
snapshot loads its state, an unparseable one loads the empty state,
snapshot and directory loads never report errors. -/
theorem construction_never_fatal_witness :
    ((fun c => if c == ("good") then some stW else none) ("good") = some stW)
    ∧ file_load (fun c => if c == ("good") then some stW else none)
        (.readable ("good")) = .ok stW
    ∧ ((fun _ : String => (none : Option ConfigState)) ("bad") = none)
    ∧ file_load (fun _ => none) (.readable ("bad")) = .ok empty_state
    ∧ isErr (file_load (fun _ => none) .unreadable) = false
    ∧ isErr (dir_load ⟨true, [], []⟩) = false
    ∧ load_env_configs [(("broken"), none)] = load_env_configs [] := by
  obtain ⟨c1, c2, c3, c4, c5, c6⟩ := construction_never_fatal
  exact ⟨by rfl,
    c2 (fun c => if c == ("good") then some stW else none) ("good") stW (by rfl),
    by rfl,
    c3 (fun _ => none) ("bad") (by rfl),
    c1 (fun _ => none) .unreadable,
    c5 ⟨true, [], []⟩,
    c6 ("broken") []⟩
